import Mathlib

/-!
Verification of the GPU Gaussian-blur pipeline of SkGpuBlurUtils.cpp
(src/unnamed/part_001) against its natural-language specification.

Part 1: the sigma planner (`adjust_sigma`, source lines 58-71).
The C float `sigma` is modelled as a rational number: every operation the
loop performs on it (comparison with 4.0, multiplication by 0.5) is exact
in binary floating point, so the rational model is faithful.  The C ints
`scaleFactor` and `maxTextureSize` are modelled as naturals (they are
nonnegative and no overflow occurs for realistic texture sizes), and the
kernel radius as an integer.
-/

/-- MAX_BLUR_SIGMA from SkGpuBlurUtils.cpp line 23 (4.0f). -/
def MAX_BLUR_SIGMA : ℚ := 4

/-- The while-loop of adjust_sigma (source lines 60-67): while sigma exceeds
MAX_BLUR_SIGMA, double the scale factor and halve sigma; if the doubled scale
factor exceeds maxTextureSize, clamp it to maxTextureSize and set sigma to
MAX_BLUR_SIGMA (after which the loop condition fails and the loop exits,
modelled here by the tail call with sigma = MAX_BLUR_SIGMA). -/
def adjustSigmaAux (maxTextureSize : ℕ) (sigma : ℚ) (scaleFactor : ℕ) : ℚ × ℕ :=
  if MAX_BLUR_SIGMA < sigma then
    if maxTextureSize < scaleFactor * 2 then
      adjustSigmaAux maxTextureSize MAX_BLUR_SIGMA maxTextureSize
    else
      adjustSigmaAux maxTextureSize (sigma / 2) (scaleFactor * 2)
  else
    (sigma, scaleFactor)
termination_by Nat.ceil sigma
decreasing_by
· rename_i h1 h2
  have h4 : (4 : ℚ) < sigma := by simpa [MAX_BLUR_SIGMA] using h1
  have h5 : (4 : ℕ) < Nat.ceil sigma := Nat.lt_ceil.mpr (by exact_mod_cast h4)
  calc Nat.ceil MAX_BLUR_SIGMA = 4 := by norm_num [MAX_BLUR_SIGMA]
    _ < Nat.ceil sigma := h5
· rename_i h1 h2
  have h4 : (4 : ℚ) < sigma := by simpa [MAX_BLUR_SIGMA] using h1
  have h5 : (4 : ℕ) < Nat.ceil sigma := Nat.lt_ceil.mpr (by exact_mod_cast h4)
  have hle : sigma ≤ (Nat.ceil sigma : ℚ) := Nat.le_ceil sigma
  have hstep : Nat.ceil (sigma / 2) ≤ Nat.ceil sigma - 1 := by
    apply Nat.ceil_le.mpr
    have h1le : 1 ≤ Nat.ceil sigma := by omega
    have hcast : ((Nat.ceil sigma - 1 : ℕ) : ℚ) = (Nat.ceil sigma : ℚ) - 1 := by
      push_cast [Nat.cast_sub h1le]
      ring
    rw [hcast]
    have hm : (5 : ℚ) ≤ (Nat.ceil sigma : ℚ) := by exact_mod_cast h5
    linarith
  omega

/-- Result of the planner: the effective sigma, the downscale factor, and the
kernel radius (the three outputs of adjust_sigma). -/
structure PlanResult where
  sigma : ℚ
  scaleFactor : ℕ
  radius : ℤ
deriving DecidableEq, Repr

/-- adjust_sigma (source lines 58-71): run the loop starting from
scaleFactor = 1 and compute radius = ceil(sigma * 3.0f) from the final
sigma. -/
def adjust_sigma (sigma : ℚ) (maxTextureSize : ℕ) : PlanResult :=
  let r := adjustSigmaAux maxTextureSize sigma 1
  { sigma := r.1, scaleFactor := r.2, radius := Int.ceil (r.1 * 3) }

/-- Modelled from the spec: the implementation's maximum supported kernel
radius, GrGaussianConvolutionFragmentProcessor::kMaxKernelRadius.  Its header
is not under src/; the spec states the planner's loop is constructed so that
radius = ceil(3 x sigma) with sigma at most 4.0 never exceeds it, so the
maximum is ceil(3 x 4.0) = 12. -/
def kMaxKernelRadius : ℤ := 12

/-- Modelled from the spec: the debug-build internal consistency check
SkASSERT(radius <= kMaxKernelRadius) at source line 69, described by the
spec as the planner failing with a sentinel/invalid state when the radius
is out of range (the spec's error taxonomy calls for fail-fast on this
invariant violation). -/
def adjust_sigmaChecked (sigma : ℚ) (maxTextureSize : ℕ) : Option PlanResult :=
  let r := adjust_sigma sigma maxTextureSize
  if kMaxKernelRadius < r.radius then none else some r

/-- SkIsPow2 from SkTypes.h (used by the SkASSERT at source line 255):
value & (value - 1) == 0. -/
def SkIsPow2 (value : ℤ) : Bool := Int.land value (value - 1) == 0

/-- Modelled from the spec: the planner contract of spec section 4.1,
written from its words: "while sigma exceeds the fixed per-pass maximum
(4.0), double the scale factor and halve sigma; if the scale factor would
exceed maxTextureSize, clamp the scale factor to maxTextureSize and clamp
sigma to the maximum." -/
def planSpecLoop (maxTextureSize : ℕ) (sigma : ℚ) (scaleFactor : ℕ) : ℚ × ℕ :=
  if MAX_BLUR_SIGMA < sigma then
    if maxTextureSize < scaleFactor * 2 then
      (MAX_BLUR_SIGMA, maxTextureSize)
    else
      planSpecLoop maxTextureSize (sigma / 2) (scaleFactor * 2)
  else
    (sigma, scaleFactor)
termination_by Nat.ceil sigma
decreasing_by
rename_i h1 h2
have h4 : (4 : ℚ) < sigma := by simpa [MAX_BLUR_SIGMA] using h1
have h5 : (4 : ℕ) < Nat.ceil sigma := Nat.lt_ceil.mpr (by exact_mod_cast h4)
have hle : sigma ≤ (Nat.ceil sigma : ℚ) := Nat.le_ceil sigma
have hstep : Nat.ceil (sigma / 2) ≤ Nat.ceil sigma - 1 := by
  apply Nat.ceil_le.mpr
  have h1le : 1 ≤ Nat.ceil sigma := by omega
  have hcast : ((Nat.ceil sigma - 1 : ℕ) : ℚ) = (Nat.ceil sigma : ℚ) - 1 := by
    push_cast [Nat.cast_sub h1le]
    ring
  rw [hcast]
  have hm : (5 : ℚ) ≤ (Nat.ceil sigma : ℚ) := by exact_mod_cast h5
  linarith
omega

/-- Modelled from the spec: plan(sigma, maxTextureSize) of spec section 4.1,
returning (effectiveSigma, scaleFactor, radius) with scale factor starting
at 1 and "Radius = ceil(3 x final sigma)". -/
def planSpec (sigma : ℚ) (maxTextureSize : ℕ) : PlanResult :=
  let r := planSpecLoop maxTextureSize sigma 1
  { sigma := r.1, scaleFactor := r.2, radius := Int.ceil (3 * r.1) }

/-! Helper lemmas about the planner loop. -/

theorem adjustSigmaAux_of_le (M : ℕ) (σ : ℚ) (s : ℕ) (h : ¬ MAX_BLUR_SIGMA < σ) :
    adjustSigmaAux M σ s = (σ, s) := by
  rw [adjustSigmaAux, if_neg h]

theorem adjustSigmaAux_scaleFactor_bounds (M : ℕ) (σ : ℚ) (s : ℕ) (hs : s ≤ M) :
    s ≤ (adjustSigmaAux M σ s).2 ∧ (adjustSigmaAux M σ s).2 ≤ M := by
  induction σ, s using adjustSigmaAux.induct M with
  | case1 σ s h hM ih =>
    rw [adjustSigmaAux, if_pos h, if_pos hM]
    have := ih le_rfl
    exact ⟨le_trans hs this.1, this.2⟩
  | case2 σ s h hM ih =>
    rw [adjustSigmaAux, if_pos h, if_neg hM]
    have h2M : s * 2 ≤ M := by omega
    have := ih h2M
    exact ⟨le_trans (by omega) this.1, this.2⟩
  | case3 σ s h =>
    rw [adjustSigmaAux, if_neg h]
    exact ⟨le_rfl, hs⟩

theorem adjustSigmaAux_sigma_le (M : ℕ) (σ : ℚ) (s : ℕ) :
    (adjustSigmaAux M σ s).1 ≤ MAX_BLUR_SIGMA := by
  induction σ, s using adjustSigmaAux.induct M with
  | case1 σ s h hM ih =>
    rw [adjustSigmaAux, if_pos h, if_pos hM]
    exact ih
  | case2 σ s h hM ih =>
    rw [adjustSigmaAux, if_pos h, if_neg hM]
    exact ih
  | case3 σ s h =>
    rw [adjustSigmaAux, if_neg h]
    exact le_of_not_lt h

theorem adjustSigmaAux_sigma_pos (M : ℕ) (σ : ℚ) (s : ℕ) (hσ : 0 < σ) :
    0 < (adjustSigmaAux M σ s).1 := by
  induction σ, s using adjustSigmaAux.induct M with
  | case1 σ s h hM ih =>
    rw [adjustSigmaAux, if_pos h, if_pos hM]
    exact ih (by norm_num [MAX_BLUR_SIGMA])
  | case2 σ s h hM ih =>
    rw [adjustSigmaAux, if_pos h, if_neg hM]
    exact ih (by positivity)
  | case3 σ s h =>
    rw [adjustSigmaAux, if_neg h]
    exact hσ

theorem adjustSigmaAux_mono (M : ℕ) (σ' : ℚ) (s : ℕ) :
    ∀ σ, s ≤ M → σ ≤ σ' → (adjustSigmaAux M σ s).2 ≤ (adjustSigmaAux M σ' s).2 := by
  induction σ', s using adjustSigmaAux.induct M with
  | case1 σ' s h hM ih =>
    intro σ hs hσ
    conv_rhs => rw [adjustSigmaAux, if_pos h, if_pos hM,
      adjustSigmaAux_of_le M MAX_BLUR_SIGMA M (by norm_num [MAX_BLUR_SIGMA])]
    exact (adjustSigmaAux_scaleFactor_bounds M σ s hs).2
  | case2 σ' s h hM ih =>
    intro σ hs hσ
    conv_rhs => rw [adjustSigmaAux, if_pos h, if_neg hM]
    by_cases hσ4 : MAX_BLUR_SIGMA < σ
    · conv_lhs => rw [adjustSigmaAux, if_pos hσ4, if_neg hM]
      exact ih (σ / 2) (by omega) (by linarith)
    · rw [adjustSigmaAux_of_le M σ s hσ4]
      have h2M : s * 2 ≤ M := by omega
      have hb := (adjustSigmaAux_scaleFactor_bounds M (σ'/2) (s*2) h2M).1
      show s ≤ (adjustSigmaAux M (σ'/2) (s*2)).2
      omega
  | case3 σ' s h =>
    intro σ hs hσ
    rw [adjustSigmaAux_of_le M σ' s h]
    rw [adjustSigmaAux_of_le M σ s (fun hc => h (hc.trans_le hσ))]

theorem adjustSigmaAux_eq_planSpecLoop (M : ℕ) (σ : ℚ) (s : ℕ) :
    adjustSigmaAux M σ s = planSpecLoop M σ s := by
  induction σ, s using adjustSigmaAux.induct M with
  | case1 σ s h hM ih =>
    rw [adjustSigmaAux, if_pos h, if_pos hM,
      adjustSigmaAux_of_le M MAX_BLUR_SIGMA M (by norm_num [MAX_BLUR_SIGMA]),
      planSpecLoop, if_pos h, if_pos hM]
  | case2 σ s h hM ih =>
    rw [adjustSigmaAux, if_pos h, if_neg hM, planSpecLoop, if_pos h, if_neg hM]
    exact ih
  | case3 σ s h =>
    rw [adjustSigmaAux, if_neg h, planSpecLoop, if_neg h]

/-- Helper: the planner's radius never exceeds the maximum supported kernel
radius, for every sigma and maxTextureSize. -/
theorem adjust_sigma_radius_le_max (σ : ℚ) (M : ℕ) :
    (adjust_sigma σ M).radius ≤ kMaxKernelRadius := by
  have h := adjustSigmaAux_sigma_le M σ 1
  simp only [adjust_sigma, kMaxKernelRadius]
  have : (adjustSigmaAux M σ 1).1 * 3 ≤ 12 := by
    simp only [MAX_BLUR_SIGMA] at h
    linarith
  calc Int.ceil ((adjustSigmaAux M σ 1).1 * 3) ≤ Int.ceil (12 : ℚ) :=
        Int.ceil_le_ceil this
    _ = 12 := by norm_num

/-- Helper: concrete planner run used by claim C4 — sigma = 300 with a
non-power-of-two maxTextureSize = 100 clamps the scale factor to 100. -/
theorem adjustSigmaAux_300_100 : adjustSigmaAux 100 300 1 = (4, 100) := by
  rw [adjustSigmaAux]; norm_num [MAX_BLUR_SIGMA]
  rw [adjustSigmaAux]; norm_num [MAX_BLUR_SIGMA]
  rw [adjustSigmaAux]; norm_num [MAX_BLUR_SIGMA]
  rw [adjustSigmaAux]; norm_num [MAX_BLUR_SIGMA]
  rw [adjustSigmaAux]; norm_num [MAX_BLUR_SIGMA]
  rw [adjustSigmaAux]; norm_num [MAX_BLUR_SIGMA]
  rw [adjustSigmaAux]; norm_num [MAX_BLUR_SIGMA]
  rw [adjustSigmaAux]; norm_num [MAX_BLUR_SIGMA]

/-! Claim theorems for the planner. -/

/-- Claim C1: for every non-negative sigma and positive maxTextureSize, the
planner computes (effectiveSigma, scaleFactor, radius) by exactly the loop
stated in the spec — scaleFactor starts at 1, while sigma exceeds 4.0 the
scale factor doubles and sigma halves, a scale factor exceeding
maxTextureSize is clamped to maxTextureSize with sigma clamped to 4.0 —
and the returned radius equals ceil(3 x final sigma). -/
theorem adjust_sigma_matches_spec_plan (σ : ℚ) (M : ℕ) (h0 : 0 ≤ σ) (hM : 0 < M) :
    adjust_sigma σ M = planSpec σ M := by
  simp only [adjust_sigma, planSpec, adjustSigmaAux_eq_planSpecLoop]
  congr 1
  rw [mul_comm]

/-- Witness for claim C1 at sigma = 8, maxTextureSize = 1000. -/
theorem adjust_sigma_matches_spec_plan_witness :
    (0 : ℚ) ≤ 8 ∧ (0 : ℕ) < 1000 ∧ adjust_sigma 8 1000 = planSpec 8 1000 :=
  ⟨by norm_num, by norm_num,
    adjust_sigma_matches_spec_plan 8 1000 (by norm_num) (by norm_num)⟩

/-- Claim C4 (code bug evaluation): at sigma = 300 with the positive,
non-power-of-two maxTextureSize = 100, the planner's clamp sets the scale
factor to 100, which is not a power of two — contradicting both the spec's
invariant and the code's own SkASSERT(SkIsPow2(scaleFactorX)) in decimate
(source line 255), which decimate would hit since 100 > 1. -/
theorem adjust_sigma_nonpow2_scaleFactor :
    adjust_sigma 300 100 = { sigma := 4, scaleFactor := 100, radius := 12 }
    ∧ SkIsPow2 ((adjust_sigma 300 100).scaleFactor : ℤ) = false
    ∧ 1 < (adjust_sigma 300 100).scaleFactor := by
  have h : adjust_sigma 300 100 = { sigma := 4, scaleFactor := 100, radius := 12 } := by
    simp only [adjust_sigma, adjustSigmaAux_300_100]
    norm_num
  refine ⟨h, ?_, ?_⟩
  · rw [h]
    show SkIsPow2 ((100 : ℕ) : ℤ) = false
    norm_num [SkIsPow2]
    decide
  · rw [h]
    norm_num

/-- Claim C5: for any fixed positive maxTextureSize the scale factor is
monotonically non-decreasing in sigma, and for every sigma the kernel radius
never exceeds the fixed maximum supported kernel radius. -/
theorem adjust_sigma_mono_and_radius_bounded (M : ℕ) (σ σ' : ℚ)
    (hM : 0 < M) (hσ : σ ≤ σ') :
    (adjust_sigma σ M).scaleFactor ≤ (adjust_sigma σ' M).scaleFactor
    ∧ (adjust_sigma σ M).radius ≤ kMaxKernelRadius := by
  constructor
  · exact adjustSigmaAux_mono M σ' 1 σ (by omega) hσ
  · exact adjust_sigma_radius_le_max σ M

/-- Witness for claim C5 at maxTextureSize = 1000, sigma = 1 and 8. -/
theorem adjust_sigma_mono_and_radius_bounded_witness :
    (0 : ℕ) < 1000 ∧ (1 : ℚ) ≤ 8
    ∧ ((adjust_sigma 1 1000).scaleFactor ≤ (adjust_sigma 8 1000).scaleFactor
       ∧ (adjust_sigma 1 1000).radius ≤ kMaxKernelRadius) :=
  ⟨by norm_num, by norm_num,
    adjust_sigma_mono_and_radius_bounded 1000 1 8 (by norm_num) (by norm_num)⟩

/-- Claim C6: the checked planner returns the invalid sentinel exactly when
the computed radius exceeds the maximum supported kernel radius; and since
the loop keeps the radius in range, the sentinel in fact never fires — the
planner always returns its result as a normal value. -/
theorem adjust_sigmaChecked_sentinel_iff (σ : ℚ) (M : ℕ) :
    (adjust_sigmaChecked σ M = none
      ↔ kMaxKernelRadius < (adjust_sigma σ M).radius)
    ∧ adjust_sigmaChecked σ M = some (adjust_sigma σ M) := by
  have hle := adjust_sigma_radius_le_max σ M
  constructor
  · constructor
    · intro h
      by_contra hc
      simp only [adjust_sigmaChecked, if_neg hc] at h
      exact Option.some_ne_none _ h
    · intro h
      simp only [adjust_sigmaChecked, if_pos h]
  · simp only [adjust_sigmaChecked, if_neg (not_lt.mpr hle)]

/-!
Part 2: the GPU pipeline (decimate, convolve_gaussian, reexpand,
GaussianBlur).  The external renderer is modelled as an oracle
(`GpuEnv.ok`) deciding whether each fallible renderer operation (render
target allocation, texture-proxy extraction) succeeds; a pipeline run is a
function from an operation counter to the list of GPU commands issued, the
next counter value, and an optional result — `none` models the C++ null
returns.  Geometry uses exact integer/rational arithmetic; the only float
operations the source performs on coordinates (multiplication by powers of
two, floor/ceil, insetting by 0.5) are exact in floating point, so this is
faithful.
-/

structure SkIPoint where
  x : ℤ
  y : ℤ
deriving DecidableEq, Repr

structure SkIRect where
  fLeft : ℤ
  fTop : ℤ
  fRight : ℤ
  fBottom : ℤ
deriving DecidableEq, Repr

def SkIRect.MakeLTRB (l t r b : ℤ) : SkIRect := ⟨l, t, r, b⟩

def SkIRect.MakeWH (w h : ℤ) : SkIRect := ⟨0, 0, w, h⟩

def SkIRect.MakeXYWH (x y w h : ℤ) : SkIRect := ⟨x, y, x + w, y + h⟩

def SkIRect.width (r : SkIRect) : ℤ := r.fRight - r.fLeft

def SkIRect.height (r : SkIRect) : ℤ := r.fBottom - r.fTop

def SkIRect.offset (r : SkIRect) (dx dy : ℤ) : SkIRect :=
  ⟨r.fLeft + dx, r.fTop + dy, r.fRight + dx, r.fBottom + dy⟩

def SkIRect.offsetTo (r : SkIRect) (x y : ℤ) : SkIRect :=
  ⟨x, y, x + r.width, y + r.height⟩

def SkIRect.inset (r : SkIRect) (dx dy : ℤ) : SkIRect :=
  ⟨r.fLeft + dx, r.fTop + dy, r.fRight - dx, r.fBottom - dy⟩

def SkIRect.isEmpty (r : SkIRect) : Bool :=
  decide (r.fRight ≤ r.fLeft) || decide (r.fBottom ≤ r.fTop)

/-- SkRect with exact rational coordinates standing for the C floats. -/
structure SkRect where
  fLeft : ℚ
  fTop : ℚ
  fRight : ℚ
  fBottom : ℚ
deriving DecidableEq, Repr

def SkRect.Make (r : SkIRect) : SkRect := ⟨r.fLeft, r.fTop, r.fRight, r.fBottom⟩

def SkRect.inset (r : SkRect) (dx dy : ℚ) : SkRect :=
  ⟨r.fLeft + dx, r.fTop + dy, r.fRight - dx, r.fBottom - dy⟩

/-- scale_irect_roundout (source lines 27-32): floor the left/top, ceil the
right/bottom of the scaled coordinates. -/
def scale_irect_roundout (r : SkIRect) (xScale yScale : ℚ) : SkIRect :=
  ⟨Int.floor ((r.fLeft : ℚ) * xScale), Int.floor ((r.fTop : ℚ) * yScale),
   Int.ceil ((r.fRight : ℚ) * xScale), Int.ceil ((r.fBottom : ℚ) * yScale)⟩

/-- scale_irect (source lines 34-39). -/
def scale_irect (r : SkIRect) (xScale yScale : ℤ) : SkIRect :=
  ⟨r.fLeft * xScale, r.fTop * yScale, r.fRight * xScale, r.fBottom * yScale⟩

/-- shrink_irect_by_2 (source lines 45-56).  The source asserts the halved
coordinates are even, so integer division is exact and the rounding
convention is irrelevant. -/
def shrink_irect_by_2 (r : SkIRect) (xAxis yAxis : Bool) : SkIRect :=
  let r1 := if xAxis then { r with fLeft := r.fLeft / 2, fRight := r.fRight / 2 } else r
  if yAxis then { r1 with fTop := r1.fTop / 2, fBottom := r1.fBottom / 2 } else r1

inductive GrTextureDomainMode where
  | kIgnore_Mode
  | kClamp_Mode
  | kRepeat_Mode
  | kDecal_Mode
deriving DecidableEq, Repr

inductive Direction where
  | kX
  | kY
deriving DecidableEq, Repr

inductive SkBackingFit where
  | kApprox
  | kExact
deriving DecidableEq, Repr

/-- The pixel configs admitted by get_blur_config's assertion
(source lines 107-111). -/
inductive GrPixelConfig where
  | kBGRA_8888
  | kRGBA_8888
  | kRGB_888
  | kRGBA_4444
  | kRGB_565
  | kSRGBA_8888
  | kSBGRA_8888
  | kRGBA_half
  | kAlpha_8
  | kRGBA_1010102
deriving DecidableEq, Repr

def GrPixelConfigIsSRGB : GrPixelConfig → Bool
  | .kSRGBA_8888 => true
  | .kSBGRA_8888 => true
  | _ => false

inductive SkColorType where
  | kBGRA_8888
  | kRGBA_8888
  | kRGB_888x
  | kARGB_4444
  | kRGB_565
  | kRGBA_F16
  | kAlpha_8
  | kRGBA_1010102
deriving DecidableEq, Repr

/-- GrPixelConfigToColorType restricted to the configs of the model; on all
of them the conversion succeeds (the fallible cases of the real function are
configs get_blur_config already rules out by assertion). -/
def GrPixelConfigToColorType : GrPixelConfig → Option SkColorType
  | .kBGRA_8888 => some .kBGRA_8888
  | .kRGBA_8888 => some .kRGBA_8888
  | .kRGB_888 => some .kRGB_888x
  | .kRGBA_4444 => some .kARGB_4444
  | .kRGB_565 => some .kRGB_565
  | .kSRGBA_8888 => some .kRGBA_8888
  | .kSBGRA_8888 => some .kBGRA_8888
  | .kRGBA_half => some .kRGBA_F16
  | .kAlpha_8 => some .kAlpha_8
  | .kRGBA_1010102 => some .kRGBA_1010102

inductive SkAlphaType where
  | kOpaque
  | kPremul
  | kUnpremul
deriving DecidableEq, Repr

/-- get_blur_config (source lines 96-114): a null destination color space
together with an sRGB source config forces the non-sRGB RGBA_8888 config;
otherwise the proxy's config is used unchanged.  The color space is
modelled as Option Unit (none = null SkColorSpace). -/
def get_blur_config (proxyConfig : GrPixelConfig) (cs : Option Unit) : GrPixelConfig :=
  if GrPixelConfigIsSRGB proxyConfig && cs.isNone then GrPixelConfig.kRGBA_8888
  else proxyConfig

structure SkImageInfo where
  width : ℤ
  height : ℤ
  colorType : SkColorType
  alphaType : SkAlphaType
  colorSpace : Option Unit
deriving DecidableEq, Repr

def SkImageInfo.bounds (ii : SkImageInfo) : SkIRect := SkIRect.MakeWH ii.width ii.height

structure GrRenderTargetContext where
  width : ℤ
  height : ℤ
  config : GrPixelConfig
  colorSpace : Option Unit
  id : ℕ
deriving DecidableEq, Repr

structure GrTextureProxy where
  config : GrPixelConfig
  id : ℕ
deriving DecidableEq, Repr

/-- The GPU commands the pipeline issues, recorded for the trace. -/
inductive GpuEvent where
  | alloc (fit : SkBackingFit) (width height : ℤ) (config : GrPixelConfig)
      (colorSpace : Option Unit)
  | clear (rect : SkIRect)
  | absClear (rect : SkIRect)
  | convolve1D (dstRect : SkIRect) (srcOffset : SkIPoint) (direction : Direction)
      (radius : ℤ) (sigma : ℚ) (mode : GrTextureDomainMode) (lo hi : ℤ)
  | convolve2D (srcBounds : SkIRect) (srcOffset : SkIPoint) (radiusX radiusY : ℤ)
      (sigmaX sigmaY : ℚ) (mode : GrTextureDomainMode)
  | drawDomainBilerp (domain : SkRect) (mode : GrTextureDomainMode)
      (dstRect srcRect : SkIRect)
  | drawClampBilerp (dstRect srcRect : SkIRect)
deriving DecidableEq, Repr

/-- The external renderer oracle: ok n tells whether the n-th fallible
renderer operation of a run succeeds, and maxTextureSize is the cap
reported by GrCaps. -/
structure GpuEnv where
  ok : ℕ → Bool
  maxTextureSize : ℕ

/-- A pipeline computation: from the fallible-operation counter to the
events issued, the next counter, and the optional result (none = the C++
early null return). -/
def GpuM (α : Type) : Type := ℕ → List GpuEvent × ℕ × Option α

def gpuPure {α : Type} (a : α) : GpuM α := fun c => ([], c, some a)

/-- Sequencing with the early-return-on-null pattern of the source: run f,
and only if its result is non-null continue with g (the events of both are
recorded). -/
def gpuStep {α β : Type} (f : GpuM α) (g : α → GpuM β) : GpuM β := fun c =>
  match f c with
  | (evs, c', none) => (evs, c', none)
  | (evs, c', some a) =>
    let r := g a c'
    (evs ++ r.1, r.2.1, r.2.2)

def emit (e : GpuEvent) : GpuM Unit := fun c => ([e], c, some ())

/-- GrContext::makeDeferredRenderTargetContext: consumes one oracle
decision; on success the new render target context carries the requested
dimensions and config. -/
def makeDeferredRenderTargetContext (env : GpuEnv) (fit : SkBackingFit)
    (width height : ℤ) (config : GrPixelConfig) (cs : Option Unit) :
    GpuM GrRenderTargetContext :=
  fun c => ([.alloc fit width height config cs], c + 1,
            if env.ok c then some ⟨width, height, config, cs, c⟩ else none)

/-- GrRenderTargetContext::asTextureProxyRef: fallible extraction of a
texture proxy backed by the render target. -/
def asTextureProxyRef (env : GpuEnv) (rtc : GrRenderTargetContext) :
    GpuM GrTextureProxy :=
  fun c => ([], c + 1, if env.ok c then some ⟨rtc.config, rtc.id⟩ else none)

/-- convolve_gaussian_1d (source lines 73-94): a single draw applying the
1-D Gaussian convolution fragment processor over dstRect. -/
def convolve_gaussian_1d (dstRect : SkIRect) (srcOffset : SkIPoint)
    (direction : Direction) (radius : ℤ) (sigma : ℚ)
    (mode : GrTextureDomainMode) (bounds : ℤ × ℤ) : GpuM Unit :=
  emit (.convolve1D dstRect srcOffset direction radius sigma mode bounds.1 bounds.2)

/-- convolve_gaussian_2d (source lines 116-155): allocate the destination
render target (null-checked) and issue the single fused 2-D convolution
draw. -/
def convolve_gaussian_2d (env : GpuEnv) (proxy : GrTextureProxy)
    (srcBounds : SkIRect) (srcOffset : SkIPoint) (radiusX radiusY : ℤ)
    (sigmaX sigmaY : ℚ) (mode : GrTextureDomainMode) (dstII : SkImageInfo)
    (dstFit : SkBackingFit) : GpuM GrRenderTargetContext :=
  let config := get_blur_config proxy.config dstII.colorSpace
  gpuStep (makeDeferredRenderTargetContext env dstFit dstII.width dstII.height
      config dstII.colorSpace)
    (fun renderTargetContext =>
      gpuStep (emit (.convolve2D srcBounds srcOffset radiusX radiusY sigmaX sigmaY mode))
        (fun _ => gpuPure renderTargetContext))

/-- convolve_gaussian (source lines 157-244): allocate the destination
(null-checked); in Ignore mode a single unrestricted 1-D pass; otherwise
clear the two margins orthogonal to the blur direction and draw the
left/right (or top/bottom) margins with the domain mode and the interior
without it. -/
def convolve_gaussian (env : GpuEnv) (proxy : GrTextureProxy) (srcRect : SkIRect)
    (srcOffset : SkIPoint) (direction : Direction) (radius : ℤ) (sigma : ℚ)
    (srcBounds : SkIRect) (mode : GrTextureDomainMode) (dstII : SkImageInfo)
    (fit : SkBackingFit) : GpuM GrRenderTargetContext :=
  let config := get_blur_config proxy.config dstII.colorSpace
  gpuStep (makeDeferredRenderTargetContext env fit srcRect.width srcRect.height
      config dstII.colorSpace)
    (fun dstRenderTargetContext =>
      let bounds : ℤ × ℤ := (0, 0)
      let dstRect := SkIRect.MakeWH srcRect.width srcRect.height
      if mode = .kIgnore_Mode then
        gpuStep (convolve_gaussian_1d dstRect srcOffset direction radius sigma
            .kIgnore_Mode bounds)
          (fun _ => gpuPure dstRenderTargetContext)
      else
        let midRect0 := srcBounds.offset srcOffset.x srcOffset.y
        let bounds' : ℤ × ℤ :=
          match direction with
          | .kX => (srcBounds.fLeft, srcBounds.fRight)
          | .kY => (srcBounds.fTop, srcBounds.fBottom)
        let topRect :=
          match direction with
          | .kX => SkIRect.MakeLTRB 0 0 dstRect.fRight midRect0.fTop
          | .kY => SkIRect.MakeLTRB 0 0 midRect0.fLeft dstRect.fBottom
        let bottomRect :=
          match direction with
          | .kX => SkIRect.MakeLTRB 0 midRect0.fBottom dstRect.fRight dstRect.fBottom
          | .kY => SkIRect.MakeLTRB midRect0.fRight 0 dstRect.fRight dstRect.fBottom
        let midRect :=
          match direction with
          | .kX => midRect0.inset radius 0
          | .kY => midRect0.inset 0 radius
        let leftRect :=
          match direction with
          | .kX => SkIRect.MakeLTRB 0 midRect.fTop midRect.fLeft midRect.fBottom
          | .kY => SkIRect.MakeLTRB midRect.fLeft 0 midRect.fRight midRect.fTop
        let rightRect :=
          match direction with
          | .kX => SkIRect.MakeLTRB midRect.fRight midRect.fTop dstRect.width midRect.fBottom
          | .kY => SkIRect.MakeLTRB midRect.fLeft midRect.fBottom midRect.fRight dstRect.height
        let dstRect' :=
          match direction with
          | .kX => { dstRect with fTop := midRect.fTop, fBottom := midRect.fBottom }
          | .kY => { dstRect with fLeft := midRect.fLeft, fRight := midRect.fRight }
        gpuStep (if topRect.isEmpty then gpuPure () else emit (.clear topRect))
          (fun _ =>
        gpuStep (if bottomRect.isEmpty then gpuPure () else emit (.clear bottomRect))
          (fun _ =>
        if midRect.isEmpty then
          gpuStep (convolve_gaussian_1d dstRect' srcOffset direction radius sigma
              mode bounds')
            (fun _ => gpuPure dstRenderTargetContext)
        else
          gpuStep (convolve_gaussian_1d leftRect srcOffset direction radius sigma
              mode bounds')
            (fun _ =>
          gpuStep (convolve_gaussian_1d rightRect srcOffset direction radius sigma
              mode bounds')
            (fun _ =>
          gpuStep (convolve_gaussian_1d midRect srcOffset direction radius sigma
              .kIgnore_Mode bounds')
            (fun _ => gpuPure dstRenderTargetContext))))))

/-- The halving loop of decimate (source lines 275-326).  i doubles each
iteration; on the first iteration with a non-Ignore mode the draw samples
through a texture-domain effect (Repeat degrading to Decal) and the source
offset is consumed; every iteration allocates an approx-fit target
(null-checked) and re-extracts a texture proxy (null-checked). -/
def decimateLoop (env : GpuEnv) (config : GrPixelConfig) (cs : Option Unit)
    (contentRect : SkIRect) (scaleFactorX scaleFactorY : ℕ)
    (mode : GrTextureDomainMode) (i : ℕ) (hi : 0 < i) (src : GrTextureProxy)
    (srcOffset : SkIPoint) (srcRect dstRect : SkIRect)
    (prev : Option GrRenderTargetContext) :
    GpuM (GrRenderTargetContext × SkIPoint × SkIRect) :=
  if h : i < scaleFactorX ∨ i < scaleFactorY then
    let dstRect' := shrink_irect_by_2 dstRect (decide (i < scaleFactorX))
        (decide (i < scaleFactorY))
    gpuStep (makeDeferredRenderTargetContext env .kApprox dstRect'.fRight
        dstRect'.fBottom config cs)
      (fun dstRenderTargetContext =>
        if mode ≠ .kIgnore_Mode ∧ i = 1 then
          let modeForScaling :=
            if mode = .kRepeat_Mode then GrTextureDomainMode.kDecal_Mode else mode
          let domain := (SkRect.Make contentRect).inset
              (if i < scaleFactorX then (1 : ℚ)/2 else 0)
              (if i < scaleFactorY then (1 : ℚ)/2 else 0)
          let srcRect' := srcRect.offset (-srcOffset.x) (-srcOffset.y)
          gpuStep (emit (.drawDomainBilerp domain modeForScaling dstRect' srcRect'))
            (fun _ =>
              gpuStep (asTextureProxyRef env dstRenderTargetContext)
                (fun src' =>
                  decimateLoop env config cs contentRect scaleFactorX scaleFactorY
                    mode (i * 2) (by omega) src' ⟨0, 0⟩ dstRect' dstRect'
                    (some dstRenderTargetContext)))
        else
          gpuStep (emit (.drawClampBilerp dstRect' srcRect))
            (fun _ =>
              gpuStep (asTextureProxyRef env dstRenderTargetContext)
                (fun src' =>
                  decimateLoop env config cs contentRect scaleFactorX scaleFactorY
                    mode (i * 2) (by omega) src' srcOffset dstRect' dstRect'
                    (some dstRenderTargetContext))))
  else
    match prev with
    | some rtc => gpuPure (rtc, srcOffset, dstRect)
    | none => fun c => ([], c, none)
termination_by scaleFactorX + scaleFactorY - i
decreasing_by
all_goals omega

/-- decimate (source lines 246-351): compute the rounded-out source
rectangle, run the halving loop, then clear the kernel-radius halo strip
(to the right of the content rectangle when an X convolution follows and X
was decimated; below it when no X convolution follows and Y was decimated)
and hand the final texture on.  Returns the new source proxy together with
the updated source offset and content rectangle (the in-out pointer
parameters of the C++ function). -/
def decimate (env : GpuEnv) (src : GrTextureProxy) (srcOffset : SkIPoint)
    (contentRect : SkIRect) (scaleFactorX scaleFactorY : ℕ)
    (willBeXFiltering willBeYFiltering : Bool) (radiusX radiusY : ℤ)
    (mode : GrTextureDomainMode) (dstII : SkImageInfo) :
    GpuM (GrTextureProxy × SkIPoint × SkIRect) :=
  let config := get_blur_config src.config dstII.colorSpace
  let srcRect0 :=
    if mode = .kIgnore_Mode then dstII.bounds
    else contentRect.offset srcOffset.x srcOffset.y
  let srcRect1 := scale_irect_roundout srcRect0
      (1 / (scaleFactorX : ℚ)) (1 / (scaleFactorY : ℚ))
  let srcRect := scale_irect srcRect1 (scaleFactorX : ℤ) (scaleFactorY : ℤ)
  gpuStep (decimateLoop env config dstII.colorSpace contentRect scaleFactorX
      scaleFactorY mode 1 (by norm_num) src srcOffset srcRect srcRect none)
    (fun r =>
      let dstRenderTargetContext := r.1
      let srcOffset' := r.2.1
      let contentRect' := r.2.2
      gpuStep
        (if willBeXFiltering then
           if 1 < scaleFactorX then
             emit (.absClear (SkIRect.MakeXYWH contentRect'.fRight contentRect'.fTop
                 radiusX contentRect'.height))
           else gpuPure ()
         else
           if 1 < scaleFactorY then
             emit (.absClear (SkIRect.MakeXYWH contentRect'.fLeft contentRect'.fBottom
                 contentRect'.width radiusY))
           else gpuPure ())
        (fun _ =>
          gpuStep (asTextureProxyRef env dstRenderTargetContext)
            (fun proxy => gpuPure (proxy, srcOffset', contentRect'))))

/-- reexpand (source lines 354-420): clear the one-pixel strips below and to
the right of the source surface's rectangle, extract its texture proxy
(null-checked), allocate the full-size destination (null-checked), and draw
one bilinearly sampled rect (domain-restricted unless mode is Ignore,
Repeat degrading to Decal). -/
def reexpand (env : GpuEnv) (srcRenderTargetContext : GrRenderTargetContext)
    (localSrcBounds : SkIRect) (scaleFactorX scaleFactorY : ℕ)
    (mode : GrTextureDomainMode) (dstII : SkImageInfo) (fit : SkBackingFit) :
    GpuM GrRenderTargetContext :=
  let srcRect := SkIRect.MakeWH srcRenderTargetContext.width
      srcRenderTargetContext.height
  gpuStep (emit (.absClear (SkIRect.MakeXYWH srcRect.fLeft srcRect.fBottom
      (srcRect.width + 1) 1)))
    (fun _ =>
  gpuStep (emit (.absClear (SkIRect.MakeXYWH srcRect.fRight srcRect.fTop
      1 srcRect.height)))
    (fun _ =>
  gpuStep (asTextureProxyRef env srcRenderTargetContext)
    (fun srcProxy =>
  gpuStep (makeDeferredRenderTargetContext env fit dstII.width dstII.height
      (get_blur_config srcProxy.config dstII.colorSpace) dstII.colorSpace)
    (fun dstRenderTargetContext =>
  let dstRect := scale_irect srcRect (scaleFactorX : ℤ) (scaleFactorY : ℤ)
  gpuStep
    (if mode ≠ .kIgnore_Mode then
       let modeForScaling :=
         if mode = .kRepeat_Mode then GrTextureDomainMode.kDecal_Mode else mode
       emit (.drawDomainBilerp (SkRect.Make localSrcBounds) modeForScaling
           dstRect srcRect)
     else
       emit (.drawClampBilerp dstRect srcRect))
    (fun _ => gpuPure dstRenderTargetContext)))))

/-- Modelled from the spec: the fixed fusion threshold on the total tap
count, MAX_KERNEL_SIZE from GrMatrixConvolutionEffect.h (not under src/);
its value (25) does not affect any claim — the fused path is taken exactly
when the tap count does not exceed it. -/
def MAX_KERNEL_SIZE : ℤ := 25

/-- The local variables the separable pipeline threads between its passes
(GaussianBlur source lines 485-537). -/
structure BlurState where
  srcProxy : GrTextureProxy
  srcOffset : SkIPoint
  srcRect : SkIRect
  localSrcBounds : SkIRect
  dstRTC : Option GrRenderTargetContext
deriving DecidableEq, Repr

/-- The X convolution pass of GaussianBlur (source lines 489-517): convolve,
clear the radiusY-tall strip below srcRect when a Y pass follows, extract
the proxy (null-checked), reset srcRect/srcOffset to the origin and adjust
localSrcBounds (inset by radiusY in Clamp mode). -/
def xPass (env : GpuEnv) (sigmaX sigmaY : ℚ) (radiusX radiusY : ℤ)
    (mode : GrTextureDomainMode) (finalDestII : SkImageInfo)
    (xFit : SkBackingFit) (st : BlurState) : GpuM BlurState :=
  if 0 < sigmaX then
    gpuStep (convolve_gaussian env st.srcProxy st.srcRect st.srcOffset .kX radiusX
        sigmaX st.localSrcBounds mode finalDestII xFit)
      (fun dstRenderTargetContext =>
        gpuStep
          (if 0 < sigmaY then
             emit (.absClear (SkIRect.MakeXYWH st.srcRect.fLeft st.srcRect.fBottom
                 st.srcRect.width radiusY))
           else gpuPure ())
          (fun _ =>
            gpuStep (asTextureProxyRef env dstRenderTargetContext)
              (fun srcProxy' =>
                let srcRect' := st.srcRect.offsetTo 0 0
                let localSrcBounds' :=
                  if mode = .kClamp_Mode then srcRect'.inset 0 radiusY else srcRect'
                gpuPure ⟨srcProxy', ⟨0, 0⟩, srcRect', localSrcBounds',
                  some dstRenderTargetContext⟩)))
  else gpuPure st

/-- The Y convolution pass of GaussianBlur (source lines 519-534). -/
def yPass (env : GpuEnv) (sigmaY : ℚ) (radiusY : ℤ)
    (mode : GrTextureDomainMode) (finalDestII : SkImageInfo)
    (yFit : SkBackingFit) (st : BlurState) : GpuM BlurState :=
  if 0 < sigmaY then
    gpuStep (convolve_gaussian env st.srcProxy st.srcRect st.srcOffset .kY radiusY
        sigmaY st.localSrcBounds mode finalDestII yFit)
      (fun dstRenderTargetContext =>
        gpuStep (asTextureProxyRef env dstRenderTargetContext)
          (fun srcProxy' =>
            gpuPure ⟨srcProxy', ⟨0, 0⟩, st.srcRect.offsetTo 0 0, st.localSrcBounds,
              some dstRenderTargetContext⟩))
  else gpuPure st

/-- The tail of GaussianBlur (source lines 536-545): the result is the last
pass's render target (null if no pass ran, which the source only asserts
against), re-expanded when any axis was decimated. -/
def blurFinish (env : GpuEnv) (scaleFactorX scaleFactorY : ℕ)
    (mode : GrTextureDomainMode) (finalDestII : SkImageInfo) (fit : SkBackingFit)
    (st : BlurState) : GpuM GrRenderTargetContext :=
  match st.dstRTC with
  | none => fun c => ([], c, none)
  | some dstRenderTargetContext =>
    if 1 < scaleFactorX ∨ 1 < scaleFactorY then
      reexpand env dstRenderTargetContext st.localSrcBounds scaleFactorX
        scaleFactorY mode finalDestII fit
    else gpuPure dstRenderTargetContext

/-- The general separable path of GaussianBlur (source lines 466-545):
approximate fits for every intermediate, optional decimation, X pass,
Y pass, optional re-expansion. -/
def gaussianBlurSeparable (env : GpuEnv) (srcProxy : GrTextureProxy)
    (srcBounds : SkIRect) (srcOffset : SkIPoint) (sigmaX sigmaY : ℚ)
    (scaleFactorX scaleFactorY : ℕ) (radiusX radiusY : ℤ)
    (mode : GrTextureDomainMode) (finalDestII : SkImageInfo) (fit : SkBackingFit) :
    GpuM GrRenderTargetContext :=
  let xFit := if 1 < scaleFactorX ∨ 1 < scaleFactorY then SkBackingFit.kApprox
              else if 0 < sigmaY then SkBackingFit.kApprox else fit
  let yFit := if 1 < scaleFactorX ∨ 1 < scaleFactorY then SkBackingFit.kApprox else fit
  gpuStep
    (if 1 < scaleFactorX ∨ 1 < scaleFactorY then
       decimate env srcProxy srcOffset srcBounds scaleFactorX scaleFactorY
         (decide (0 < sigmaX)) (decide (0 < sigmaY)) radiusX radiusY mode finalDestII
     else gpuPure (srcProxy, srcOffset, srcBounds))
    (fun d =>
      let srcRect := scale_irect_roundout finalDestII.bounds
          (1 / (scaleFactorX : ℚ)) (1 / (scaleFactorY : ℚ))
      gpuStep (xPass env sigmaX sigmaY radiusX radiusY mode finalDestII xFit
          ⟨d.1, d.2.1, srcRect, d.2.2, none⟩)
        (fun st2 =>
          gpuStep (yPass env sigmaY radiusY mode finalDestII yFit st2)
            (fun st3 =>
              blurFinish env scaleFactorX scaleFactorY mode finalDestII fit st3)))

/-- GaussianBlur (source lines 424-546): map the blur config to a color
type (null-checked), plan both axes, and dispatch on the fused-2D
condition of source lines 456-457. -/
def GaussianBlur (env : GpuEnv) (srcProxy : GrTextureProxy)
    (colorSpace : Option Unit) (dstBounds srcBounds : SkIRect)
    (sigmaX0 sigmaY0 : ℚ) (mode : GrTextureDomainMode)
    (alphaType : SkAlphaType) (fit : SkBackingFit) :
    GpuM GrRenderTargetContext :=
  let config := get_blur_config srcProxy.config colorSpace
  match GrPixelConfigToColorType config with
  | none => fun c => ([], c, none)
  | some ct =>
    let finalDestII : SkImageInfo :=
      ⟨dstBounds.width, dstBounds.height, ct, alphaType, colorSpace⟩
    let planX := adjust_sigma sigmaX0 env.maxTextureSize
    let planY := adjust_sigma sigmaY0 env.maxTextureSize
    let srcOffset : SkIPoint := ⟨-dstBounds.fLeft, -dstBounds.fTop⟩
    if 0 < planX.sigma ∧ 0 < planY.sigma ∧
        (2 * planX.radius + 1) * (2 * planY.radius + 1) ≤ MAX_KERNEL_SIZE then
      convolve_gaussian_2d env srcProxy srcBounds srcOffset planX.radius planY.radius
        planX.sigma planY.sigma mode finalDestII fit
    else
      gaussianBlurSeparable env srcProxy srcBounds srcOffset planX.sigma planY.sigma
        planX.scaleFactor planY.scaleFactor planX.radius planY.radius mode
        finalDestII fit

/-!
Machinery for reasoning about pipeline runs: ConsumesOk states that a
computation consumes oracle decisions in order, fails (returns none)
exactly when one of the decisions it consumed was a failure, and stops at
the first failing decision; ResultOf characterises the possible successful
results; EventsOk states a boolean predicate over every issued command.
-/

def ConsumesOk (env : GpuEnv) {α : Type} (f : GpuM α) : Prop :=
  ∀ c,
    c ≤ (f c).2.1 ∧
    ((f c).2.2 = none ↔ ∃ i, c ≤ i ∧ i < (f c).2.1 ∧ env.ok i = false) ∧
    (∀ i, c ≤ i → i < (f c).2.1 → env.ok i = false → (f c).2.1 = i + 1)

def ResultOf {α : Type} (f : GpuM α) (a : α) : Prop := ∃ c, (f c).2.2 = some a

def EventsOk (p : GpuEvent → Bool) {α : Type} (f : GpuM α) : Prop :=
  ∀ c, ((f c).1.all p) = true

theorem consumesOk_gpuPure (env : GpuEnv) {α : Type} (a : α) :
    ConsumesOk env (gpuPure a) := by
  intro c
  refine ⟨le_rfl, ?_, ?_⟩
  · constructor
    · intro h
      exact absurd h (by simp [gpuPure])
    · rintro ⟨i, h1, h2, _⟩
      simp only [gpuPure] at h2
      omega
  · intro i h1 h2 _
    simp only [gpuPure] at h2
    omega

theorem consumesOk_emit (env : GpuEnv) (e : GpuEvent) : ConsumesOk env (emit e) := by
  intro c
  refine ⟨le_rfl, ?_, ?_⟩
  · constructor
    · intro h
      exact absurd h (by simp [emit])
    · rintro ⟨i, h1, h2, _⟩
      simp only [emit] at h2
      omega
  · intro i h1 h2 _
    simp only [emit] at h2
    omega

theorem consumesOk_alloc (env : GpuEnv) (fit : SkBackingFit) (w h : ℤ)
    (cfg : GrPixelConfig) (cs : Option Unit) :
    ConsumesOk env (makeDeferredRenderTargetContext env fit w h cfg cs) := by
  intro c
  simp only [makeDeferredRenderTargetContext]
  refine ⟨by omega, ?_, ?_⟩
  · by_cases hok : env.ok c
    · simp only [hok, if_true]
      constructor
      · intro hcon
        exact absurd hcon (by simp)
      · rintro ⟨i, h1, h2, hfail⟩
        have : i = c := by omega
        subst this
        rw [hok] at hfail
        exact absurd hfail (by simp)
    · simp only [hok, if_false]
      constructor
      · intro _
        exact ⟨c, le_rfl, by omega, by simpa using hok⟩
      · intro _
        rfl
  · intro i h1 h2 _
    omega

theorem consumesOk_proxy (env : GpuEnv) (rtc : GrRenderTargetContext) :
    ConsumesOk env (asTextureProxyRef env rtc) := by
  intro c
  simp only [asTextureProxyRef]
  refine ⟨by omega, ?_, ?_⟩
  · by_cases hok : env.ok c
    · simp only [hok, if_true]
      constructor
      · intro hcon
        exact absurd hcon (by simp)
      · rintro ⟨i, h1, h2, hfail⟩
        have : i = c := by omega
        subst this
        rw [hok] at hfail
        exact absurd hfail (by simp)
    · simp only [hok, if_false]
      constructor
      · intro _
        exact ⟨c, le_rfl, by omega, by simpa using hok⟩
      · intro _
        rfl
  · intro i h1 h2 _
    omega

theorem consumesOk_gpuStep (env : GpuEnv) {α β : Type} (f : GpuM α) (g : α → GpuM β)
    (hf : ConsumesOk env f) (hg : ∀ a, ResultOf f a → ConsumesOk env (g a)) :
    ConsumesOk env (gpuStep f g) := by
  intro c
  rcases hfc : f c with ⟨evs, cf, r⟩
  have hfspec := hf c
  rw [hfc] at hfspec
  cases r with
  | none =>
    have hrun : gpuStep f g c = (evs, cf, none) := by
      simp only [gpuStep, hfc]
    rw [hrun]
    refine ⟨hfspec.1, ?_, hfspec.2.2⟩
    constructor
    · intro _
      exact hfspec.2.1.mp rfl
    · intro _
      rfl
  | some a =>
    have hres : ResultOf f a := ⟨c, by rw [hfc]⟩
    have hgspec := hg a hres cf
    rcases hgc : g a cf with ⟨evs2, cg, r2⟩
    rw [hgc] at hgspec
    have hrun : gpuStep f g c = (evs ++ evs2, cg, r2) := by
      simp only [gpuStep, hfc, hgc]
    rw [hrun]
    simp only at hfspec hgspec ⊢
    obtain ⟨hle1, hiff1, hlast1⟩ := hfspec
    obtain ⟨hle2, hiff2, hlast2⟩ := hgspec
    have hnofail1 : ∀ i, c ≤ i → i < cf → ¬ env.ok i = false := by
      intro i hi1 hi2 hfail
      have : (some a : Option α) = none := hiff1.mpr ⟨i, hi1, hi2, hfail⟩
      exact absurd this (by simp)
    refine ⟨by omega, ?_, ?_⟩
    · constructor
      · intro h2
        obtain ⟨i, hi1, hi2, hfail⟩ := hiff2.mp h2
        exact ⟨i, by omega, hi2, hfail⟩
      · rintro ⟨i, hi1, hi2, hfail⟩
        by_cases hicf : i < cf
        · exact absurd hfail (hnofail1 i hi1 hicf)
        · exact hiff2.mpr ⟨i, by omega, hi2, hfail⟩
    · intro i hi1 hi2 hfail
      by_cases hicf : i < cf
      · exact absurd hfail (hnofail1 i hi1 hicf)
      · exact hlast2 i (by omega) hi2 hfail

theorem consumesOk_ite (env : GpuEnv) {α : Type} (p : Prop) [Decidable p]
    (f g : GpuM α) (hf : p → ConsumesOk env f) (hg : ¬ p → ConsumesOk env g) :
    ConsumesOk env (if p then f else g) := by
  split
  · exact hf (by assumption)
  · exact hg (by assumption)

theorem resultOf_gpuPure {α : Type} {a b : α} (h : ResultOf (gpuPure a) b) : b = a := by
  obtain ⟨c, hc⟩ := h
  simp only [gpuPure, Option.some_inj] at hc
  exact hc.symm

theorem resultOf_gpuStep {α β : Type} {f : GpuM α} {g : α → GpuM β} {b : β}
    (h : ResultOf (gpuStep f g) b) : ∃ a, ResultOf f a ∧ ResultOf (g a) b := by
  obtain ⟨c, hc⟩ := h
  rcases hfc : f c with ⟨evs, cf, r⟩
  cases r with
  | none =>
    rw [show gpuStep f g c = (evs, cf, none) by simp only [gpuStep, hfc]] at hc
    exact absurd hc (by simp)
  | some a =>
    rcases hgc : g a cf with ⟨evs2, cg, r2⟩
    rw [show gpuStep f g c = (evs ++ evs2, cg, r2) by simp only [gpuStep, hfc, hgc]] at hc
    exact ⟨a, ⟨c, by rw [hfc]⟩, ⟨cf, by rw [hgc]; exact hc⟩⟩

theorem resultOf_ite {α : Type} {p : Prop} [Decidable p] {f g : GpuM α} {b : α}
    (h : ResultOf (if p then f else g) b) :
    (p ∧ ResultOf f b) ∨ (¬ p ∧ ResultOf g b) := by
  by_cases hp : p
  · rw [if_pos hp] at h
    exact Or.inl ⟨hp, h⟩
  · rw [if_neg hp] at h
    exact Or.inr ⟨hp, h⟩

theorem resultOf_emit {e : GpuEvent} {u : Unit} (h : ResultOf (emit e) u) : u = () :=
  rfl

theorem resultOf_alloc {env : GpuEnv} {fit : SkBackingFit} {w h : ℤ}
    {cfg : GrPixelConfig} {cs : Option Unit} {rtc : GrRenderTargetContext}
    (hres : ResultOf (makeDeferredRenderTargetContext env fit w h cfg cs) rtc) :
    rtc.width = w ∧ rtc.height = h ∧ rtc.config = cfg := by
  obtain ⟨c, hc⟩ := hres
  simp only [makeDeferredRenderTargetContext] at hc
  by_cases hok : env.ok c
  · rw [if_pos hok] at hc
    cases hc
    exact ⟨rfl, rfl, rfl⟩
  · rw [if_neg hok] at hc
    exact absurd hc (by simp)

theorem resultOf_proxy {env : GpuEnv} {rtc : GrRenderTargetContext}
    {p : GrTextureProxy} (hres : ResultOf (asTextureProxyRef env rtc) p) :
    p.config = rtc.config := by
  obtain ⟨c, hc⟩ := hres
  simp only [asTextureProxyRef] at hc
  by_cases hok : env.ok c
  · rw [if_pos hok] at hc
    cases hc
    rfl
  · rw [if_neg hok] at hc
    exact absurd hc (by simp)

theorem eventsOk_gpuPure (p : GpuEvent → Bool) {α : Type} (a : α) :
    EventsOk p (gpuPure a) := by
  intro c
  simp [gpuPure]

theorem eventsOk_emit (p : GpuEvent → Bool) (e : GpuEvent) (he : p e = true) :
    EventsOk p (emit e) := by
  intro c
  simp [emit, he]

theorem eventsOk_alloc (p : GpuEvent → Bool) (env : GpuEnv) (fit : SkBackingFit)
    (w h : ℤ) (cfg : GrPixelConfig) (cs : Option Unit)
    (he : p (.alloc fit w h cfg cs) = true) :
    EventsOk p (makeDeferredRenderTargetContext env fit w h cfg cs) := by
  intro c
  simp [makeDeferredRenderTargetContext, he]

theorem eventsOk_proxy (p : GpuEvent → Bool) (env : GpuEnv)
    (rtc : GrRenderTargetContext) : EventsOk p (asTextureProxyRef env rtc) := by
  intro c
  simp [asTextureProxyRef]

theorem eventsOk_gpuStep (p : GpuEvent → Bool) {α β : Type} (f : GpuM α)
    (g : α → GpuM β) (hf : EventsOk p f)
    (hg : ∀ a, ResultOf f a → EventsOk p (g a)) : EventsOk p (gpuStep f g) := by
  intro c
  rcases hfc : f c with ⟨evs, cf, r⟩
  have hfspec := hf c
  rw [hfc] at hfspec
  cases r with
  | none =>
    rw [show gpuStep f g c = (evs, cf, none) by simp only [gpuStep, hfc]]
    exact hfspec
  | some a =>
    have hgspec := hg a ⟨c, by rw [hfc]⟩ cf
    rcases hgc : g a cf with ⟨evs2, cg, r2⟩
    rw [hgc] at hgspec
    rw [show gpuStep f g c = (evs ++ evs2, cg, r2) by simp only [gpuStep, hfc, hgc]]
    simp only [List.all_append]
    simp only at hfspec hgspec
    rw [hfspec, hgspec]
    rfl

theorem eventsOk_ite (p : GpuEvent → Bool) {α : Type} (q : Prop) [Decidable q]
    (f g : GpuM α) (hf : q → EventsOk p f) (hg : ¬ q → EventsOk p g) :
    EventsOk p (if q then f else g) := by
  split
  · exact hf (by assumption)
  · exact hg (by assumption)

/-! ConsumesOk for each pipeline stage. -/

theorem consumesOk_convolve_gaussian_1d (env : GpuEnv) (dstRect : SkIRect)
    (srcOffset : SkIPoint) (direction : Direction) (radius : ℤ) (sigma : ℚ)
    (mode : GrTextureDomainMode) (bounds : ℤ × ℤ) :
    ConsumesOk env (convolve_gaussian_1d dstRect srcOffset direction radius sigma
      mode bounds) := by
  unfold convolve_gaussian_1d
  exact consumesOk_emit env _

theorem consumesOk_convolve_gaussian_2d (env : GpuEnv) (proxy : GrTextureProxy)
    (srcBounds : SkIRect) (srcOffset : SkIPoint) (radiusX radiusY : ℤ)
    (sigmaX sigmaY : ℚ) (mode : GrTextureDomainMode) (dstII : SkImageInfo)
    (dstFit : SkBackingFit) :
    ConsumesOk env (convolve_gaussian_2d env proxy srcBounds srcOffset radiusX
      radiusY sigmaX sigmaY mode dstII dstFit) := by
  simp only [convolve_gaussian_2d]
  apply consumesOk_gpuStep _ _ _ (consumesOk_alloc _ _ _ _ _ _)
  intro rtc _
  exact consumesOk_gpuStep _ _ _ (consumesOk_emit _ _) (fun _ _ => consumesOk_gpuPure _ _)

theorem consumesOk_convolve_gaussian (env : GpuEnv) (proxy : GrTextureProxy)
    (srcRect : SkIRect) (srcOffset : SkIPoint) (direction : Direction)
    (radius : ℤ) (sigma : ℚ) (srcBounds : SkIRect) (mode : GrTextureDomainMode)
    (dstII : SkImageInfo) (fit : SkBackingFit) :
    ConsumesOk env (convolve_gaussian env proxy srcRect srcOffset direction radius
      sigma srcBounds mode dstII fit) := by
  simp only [convolve_gaussian]
  apply consumesOk_gpuStep _ _ _ (consumesOk_alloc _ _ _ _ _ _)
  intro rtc _
  dsimp only
  split
  · exact consumesOk_gpuStep _ _ _ (consumesOk_convolve_gaussian_1d _ _ _ _ _ _ _ _)
      (fun _ _ => consumesOk_gpuPure _ _)
  · apply consumesOk_gpuStep _ _ _
      (consumesOk_ite _ _ _ _ (fun _ => consumesOk_gpuPure _ _) (fun _ => consumesOk_emit _ _))
    intro _ _
    apply consumesOk_gpuStep _ _ _
      (consumesOk_ite _ _ _ _ (fun _ => consumesOk_gpuPure _ _) (fun _ => consumesOk_emit _ _))
    intro _ _
    split
    · exact consumesOk_gpuStep _ _ _ (consumesOk_convolve_gaussian_1d _ _ _ _ _ _ _ _)
        (fun _ _ => consumesOk_gpuPure _ _)
    · apply consumesOk_gpuStep _ _ _ (consumesOk_convolve_gaussian_1d _ _ _ _ _ _ _ _)
      intro _ _
      apply consumesOk_gpuStep _ _ _ (consumesOk_convolve_gaussian_1d _ _ _ _ _ _ _ _)
      intro _ _
      exact consumesOk_gpuStep _ _ _ (consumesOk_convolve_gaussian_1d _ _ _ _ _ _ _ _)
        (fun _ _ => consumesOk_gpuPure _ _)

theorem consumesOk_decimateLoop (env : GpuEnv) (config : GrPixelConfig)
    (cs : Option Unit) (contentRect : SkIRect) (sfX sfY : ℕ)
    (mode : GrTextureDomainMode) (i : ℕ) (hi : 0 < i) (src : GrTextureProxy)
    (srcOffset : SkIPoint) (srcRect dstRect : SkIRect)
    (prev : Option GrRenderTargetContext)
    (hvalid : (i < sfX ∨ i < sfY) ∨ prev ≠ none) :
    ConsumesOk env (decimateLoop env config cs contentRect sfX sfY mode i hi src
      srcOffset srcRect dstRect prev) := by
  induction i, hi, src, srcOffset, srcRect, dstRect, prev
      using decimateLoop.induct env config cs contentRect sfX sfY mode with
  | case1 i hi src srcOffset srcRect dstRect prev h dstRect2 ih2 ih1 =>
    rw [decimateLoop.eq_def, dif_pos h]
    apply consumesOk_gpuStep _ _ _ (consumesOk_alloc _ _ _ _ _ _)
    intro rtc _
    dsimp only
    split
    · rename_i hcond
      apply consumesOk_gpuStep _ _ _ (consumesOk_emit _ _)
      intro _ _
      apply consumesOk_gpuStep _ _ _ (consumesOk_proxy _ _)
      intro src' _
      exact ih2 rtc hcond src' (Or.inr (by simp))
    · apply consumesOk_gpuStep _ _ _ (consumesOk_emit _ _)
      intro _ _
      apply consumesOk_gpuStep _ _ _ (consumesOk_proxy _ _)
      intro src' _
      exact ih1 rtc src' (Or.inr (by simp))
  | case2 i hi src srcOffset srcRect dstRect h rtc =>
    rw [decimateLoop.eq_def, dif_neg h]
    exact consumesOk_gpuPure _ _
  | case3 i hi src srcOffset srcRect dstRect h =>
    rcases hvalid with hlt | hne
    · exact absurd hlt h
    · exact absurd rfl hne

theorem consumesOk_decimate (env : GpuEnv) (src : GrTextureProxy)
    (srcOffset : SkIPoint) (contentRect : SkIRect) (sfX sfY : ℕ)
    (willBeXFiltering willBeYFiltering : Bool) (radiusX radiusY : ℤ)
    (mode : GrTextureDomainMode) (dstII : SkImageInfo)
    (hsf : 1 < sfX ∨ 1 < sfY) :
    ConsumesOk env (decimate env src srcOffset contentRect sfX sfY
      willBeXFiltering willBeYFiltering radiusX radiusY mode dstII) := by
  simp only [decimate]
  apply consumesOk_gpuStep _ _ _
    (consumesOk_decimateLoop _ _ _ _ _ _ _ _ _ _ _ _ _ _ (Or.inl hsf))
  intro r _
  dsimp only
  apply consumesOk_gpuStep _ _ _
    (consumesOk_ite _ _ _ _
      (fun _ => consumesOk_ite _ _ _ _ (fun _ => consumesOk_emit _ _)
        (fun _ => consumesOk_gpuPure _ _))
      (fun _ => consumesOk_ite _ _ _ _ (fun _ => consumesOk_emit _ _)
        (fun _ => consumesOk_gpuPure _ _)))
  intro _ _
  apply consumesOk_gpuStep _ _ _ (consumesOk_proxy _ _)
  intro _ _
  exact consumesOk_gpuPure _ _

theorem consumesOk_reexpand (env : GpuEnv) (srcRTC : GrRenderTargetContext)
    (localSrcBounds : SkIRect) (sfX sfY : ℕ) (mode : GrTextureDomainMode)
    (dstII : SkImageInfo) (fit : SkBackingFit) :
    ConsumesOk env (reexpand env srcRTC localSrcBounds sfX sfY mode dstII fit) := by
  simp only [reexpand]
  apply consumesOk_gpuStep _ _ _ (consumesOk_emit _ _)
  intro _ _
  apply consumesOk_gpuStep _ _ _ (consumesOk_emit _ _)
  intro _ _
  apply consumesOk_gpuStep _ _ _ (consumesOk_proxy _ _)
  intro srcProxy _
  apply consumesOk_gpuStep _ _ _ (consumesOk_alloc _ _ _ _ _ _)
  intro dstRTC _
  dsimp only
  apply consumesOk_gpuStep _ _ _
    (consumesOk_ite _ _ _ _ (fun _ => consumesOk_emit _ _) (fun _ => consumesOk_emit _ _))
  intro _ _
  exact consumesOk_gpuPure _ _

theorem consumesOk_xPass (env : GpuEnv) (sigmaX sigmaY : ℚ) (radiusX radiusY : ℤ)
    (mode : GrTextureDomainMode) (finalDestII : SkImageInfo) (xFit : SkBackingFit)
    (st : BlurState) :
    ConsumesOk env (xPass env sigmaX sigmaY radiusX radiusY mode finalDestII xFit st) := by
  simp only [xPass]
  apply consumesOk_ite _ _ _ _ _ (fun _ => consumesOk_gpuPure _ _)
  intro _
  apply consumesOk_gpuStep _ _ _
    (consumesOk_convolve_gaussian _ _ _ _ _ _ _ _ _ _ _)
  intro rtc _
  apply consumesOk_gpuStep _ _ _
    (consumesOk_ite _ _ _ _ (fun _ => consumesOk_emit _ _) (fun _ => consumesOk_gpuPure _ _))
  intro _ _
  apply consumesOk_gpuStep _ _ _ (consumesOk_proxy _ _)
  intro _ _
  exact consumesOk_gpuPure _ _

theorem consumesOk_yPass (env : GpuEnv) (sigmaY : ℚ) (radiusY : ℤ)
    (mode : GrTextureDomainMode) (finalDestII : SkImageInfo) (yFit : SkBackingFit)
    (st : BlurState) :
    ConsumesOk env (yPass env sigmaY radiusY mode finalDestII yFit st) := by
  simp only [yPass]
  apply consumesOk_ite _ _ _ _ _ (fun _ => consumesOk_gpuPure _ _)
  intro _
  apply consumesOk_gpuStep _ _ _
    (consumesOk_convolve_gaussian _ _ _ _ _ _ _ _ _ _ _)
  intro rtc _
  apply consumesOk_gpuStep _ _ _ (consumesOk_proxy _ _)
  intro _ _
  exact consumesOk_gpuPure _ _

theorem consumesOk_blurFinish (env : GpuEnv) (sfX sfY : ℕ)
    (mode : GrTextureDomainMode) (finalDestII : SkImageInfo) (fit : SkBackingFit)
    (st : BlurState) (hsome : st.dstRTC ≠ none) :
    ConsumesOk env (blurFinish env sfX sfY mode finalDestII fit st) := by
  rcases hrtc : st.dstRTC with _ | rtc
  · exact absurd hrtc hsome
  · simp only [blurFinish, hrtc]
    apply consumesOk_ite _ _ _ _ (fun _ => consumesOk_reexpand _ _ _ _ _ _ _ _)
      (fun _ => consumesOk_gpuPure _ _)

/-! Shapes of successful stage results (configs propagate, passes that ran
hand over a render target). -/

theorem resultOf_convolve_gaussian {env : GpuEnv} {proxy : GrTextureProxy}
    {srcRect : SkIRect} {srcOffset : SkIPoint} {direction : Direction}
    {radius : ℤ} {sigma : ℚ} {srcBounds : SkIRect} {mode : GrTextureDomainMode}
    {dstII : SkImageInfo} {fit : SkBackingFit} {rtc : GrRenderTargetContext}
    (h : ResultOf (convolve_gaussian env proxy srcRect srcOffset direction radius
      sigma srcBounds mode dstII fit) rtc) :
    rtc.config = get_blur_config proxy.config dstII.colorSpace := by
  simp only [convolve_gaussian] at h
  obtain ⟨rtcA, hAlloc, hrest⟩ := resultOf_gpuStep h
  obtain ⟨hw, hh, hcfg⟩ := resultOf_alloc hAlloc
  rcases resultOf_ite hrest with ⟨_, h1⟩ | ⟨_, h1⟩
  · obtain ⟨_, _, h2⟩ := resultOf_gpuStep h1
    rw [resultOf_gpuPure h2]
    exact hcfg
  · obtain ⟨_, _, h2⟩ := resultOf_gpuStep h1
    obtain ⟨_, _, h3⟩ := resultOf_gpuStep h2
    rcases resultOf_ite h3 with ⟨_, h4⟩ | ⟨_, h4⟩
    · obtain ⟨_, _, h5⟩ := resultOf_gpuStep h4
      rw [resultOf_gpuPure h5]
      exact hcfg
    · obtain ⟨_, _, h5⟩ := resultOf_gpuStep h4
      obtain ⟨_, _, h6⟩ := resultOf_gpuStep h5
      obtain ⟨_, _, h7⟩ := resultOf_gpuStep h6
      rw [resultOf_gpuPure h7]
      exact hcfg

theorem resultOf_decimateLoop (env : GpuEnv) (config : GrPixelConfig)
    (cs : Option Unit) (contentRect : SkIRect) (sfX sfY : ℕ)
    (mode : GrTextureDomainMode) :
    ∀ (i : ℕ) (hi : 0 < i) (src : GrTextureProxy) (srcOffset : SkIPoint)
      (srcRect dstRect : SkIRect) (prev : Option GrRenderTargetContext),
    (∀ r, prev = some r → r.config = config) →
    ∀ res, ResultOf (decimateLoop env config cs contentRect sfX sfY mode i hi src
      srcOffset srcRect dstRect prev) res → res.1.config = config := by
  intro i hi src srcOffset srcRect dstRect prev
  induction i, hi, src, srcOffset, srcRect, dstRect, prev
      using decimateLoop.induct env config cs contentRect sfX sfY mode with
  | case1 i hi src srcOffset srcRect dstRect prev h dstRect2 ih2 ih1 =>
    intro hprev res hres
    rw [decimateLoop.eq_def, dif_pos h] at hres
    obtain ⟨rtcA, hAlloc, h1⟩ := resultOf_gpuStep hres
    obtain ⟨hw, hh, hcfg⟩ := resultOf_alloc hAlloc
    rcases resultOf_ite h1 with ⟨hcond, h2⟩ | ⟨hcond, h2⟩
    · obtain ⟨_, _, h3⟩ := resultOf_gpuStep h2
      obtain ⟨src', hpr, h4⟩ := resultOf_gpuStep h3
      exact ih2 rtcA hcond src'
        (fun r hr => by cases hr; exact hcfg) res h4
    · obtain ⟨_, _, h3⟩ := resultOf_gpuStep h2
      obtain ⟨src', hpr, h4⟩ := resultOf_gpuStep h3
      exact ih1 rtcA src'
        (fun r hr => by cases hr; exact hcfg) res h4
  | case2 i hi src srcOffset srcRect dstRect h rtc =>
    intro hprev res hres
    rw [decimateLoop.eq_def, dif_neg h] at hres
    rw [resultOf_gpuPure hres]
    exact hprev rtc rfl
  | case3 i hi src srcOffset srcRect dstRect h =>
    intro hprev res hres
    obtain ⟨c, hc⟩ := hres
    rw [decimateLoop.eq_def, dif_neg h] at hc
    exact absurd hc (by simp)

theorem resultOf_decimate {env : GpuEnv} {src : GrTextureProxy}
    {srcOffset : SkIPoint} {contentRect : SkIRect} {sfX sfY : ℕ}
    {wX wY : Bool} {radiusX radiusY : ℤ} {mode : GrTextureDomainMode}
    {dstII : SkImageInfo} {res : GrTextureProxy × SkIPoint × SkIRect}
    (h : ResultOf (decimate env src srcOffset contentRect sfX sfY wX wY radiusX
      radiusY mode dstII) res) :
    res.1.config = get_blur_config src.config dstII.colorSpace := by
  simp only [decimate] at h
  obtain ⟨r, hloop, h1⟩ := resultOf_gpuStep h
  have hr : r.1.config = get_blur_config src.config dstII.colorSpace :=
    resultOf_decimateLoop env _ dstII.colorSpace contentRect sfX sfY mode 1
      (by norm_num) src srcOffset _ _ none (fun r hr => by cases hr) r hloop
  obtain ⟨_, _, h2⟩ := resultOf_gpuStep h1
  obtain ⟨p, hproxy, h3⟩ := resultOf_gpuStep h2
  have hp := resultOf_proxy hproxy
  rw [resultOf_gpuPure h3]
  rw [hp, hr]

theorem resultOf_xPass {env : GpuEnv} {sigmaX sigmaY : ℚ} {radiusX radiusY : ℤ}
    {mode : GrTextureDomainMode} {finalDestII : SkImageInfo} {xFit : SkBackingFit}
    {st st' : BlurState}
    (h : ResultOf (xPass env sigmaX sigmaY radiusX radiusY mode finalDestII xFit st) st') :
    (0 < sigmaX
      ∧ st'.srcProxy.config = get_blur_config st.srcProxy.config finalDestII.colorSpace
      ∧ ∃ rtc, st'.dstRTC = some rtc
          ∧ rtc.config = get_blur_config st.srcProxy.config finalDestII.colorSpace)
    ∨ (¬ 0 < sigmaX ∧ st' = st) := by
  simp only [xPass] at h
  rcases resultOf_ite h with ⟨hpos, h1⟩ | ⟨hneg, h1⟩
  · left
    obtain ⟨rtc, hconv, h2⟩ := resultOf_gpuStep h1
    have hcfg := resultOf_convolve_gaussian hconv
    obtain ⟨_, _, h3⟩ := resultOf_gpuStep h2
    obtain ⟨p, hproxy, h4⟩ := resultOf_gpuStep h3
    have hp := resultOf_proxy hproxy
    rw [resultOf_gpuPure h4]
    exact ⟨hpos, by rw [hp, hcfg], rtc, rfl, hcfg⟩
  · right
    exact ⟨hneg, resultOf_gpuPure h1⟩

theorem resultOf_yPass {env : GpuEnv} {sigmaY : ℚ} {radiusY : ℤ}
    {mode : GrTextureDomainMode} {finalDestII : SkImageInfo} {yFit : SkBackingFit}
    {st st' : BlurState}
    (h : ResultOf (yPass env sigmaY radiusY mode finalDestII yFit st) st') :
    (0 < sigmaY
      ∧ st'.srcProxy.config = get_blur_config st.srcProxy.config finalDestII.colorSpace
      ∧ ∃ rtc, st'.dstRTC = some rtc
          ∧ rtc.config = get_blur_config st.srcProxy.config finalDestII.colorSpace)
    ∨ (¬ 0 < sigmaY ∧ st' = st) := by
  simp only [yPass] at h
  rcases resultOf_ite h with ⟨hpos, h1⟩ | ⟨hneg, h1⟩
  · left
    obtain ⟨rtc, hconv, h2⟩ := resultOf_gpuStep h1
    have hcfg := resultOf_convolve_gaussian hconv
    obtain ⟨p, hproxy, h3⟩ := resultOf_gpuStep h2
    have hp := resultOf_proxy hproxy
    rw [resultOf_gpuPure h3]
    exact ⟨hpos, by rw [hp, hcfg], rtc, rfl, hcfg⟩
  · right
    exact ⟨hneg, resultOf_gpuPure h1⟩

theorem consumesOk_gaussianBlurSeparable (env : GpuEnv) (srcProxy : GrTextureProxy)
    (srcBounds : SkIRect) (srcOffset : SkIPoint) (sigmaX sigmaY : ℚ)
    (sfX sfY : ℕ) (radiusX radiusY : ℤ) (mode : GrTextureDomainMode)
    (finalDestII : SkImageInfo) (fit : SkBackingFit)
    (hσ : 0 < sigmaX ∨ 0 < sigmaY) :
    ConsumesOk env (gaussianBlurSeparable env srcProxy srcBounds srcOffset sigmaX
      sigmaY sfX sfY radiusX radiusY mode finalDestII fit) := by
  simp only [gaussianBlurSeparable]
  apply consumesOk_gpuStep _ _ _
    (consumesOk_ite _ _ _ _
      (fun hd => consumesOk_decimate _ _ _ _ _ _ _ _ _ _ _ _ hd)
      (fun _ => consumesOk_gpuPure _ _))
  intro d _
  dsimp only
  apply consumesOk_gpuStep _ _ _ (consumesOk_xPass _ _ _ _ _ _ _ _ _)
  intro st2 hst2
  apply consumesOk_gpuStep _ _ _ (consumesOk_yPass _ _ _ _ _ _ _)
  intro st3 hst3
  apply consumesOk_blurFinish
  rcases resultOf_yPass hst3 with ⟨hY, _, rtc, hsome, _⟩ | ⟨hY, heq⟩
  · rw [hsome]
    simp
  · rw [heq]
    rcases resultOf_xPass hst2 with ⟨hX, _, rtc, hsome, _⟩ | ⟨hX, heq2⟩
    · rw [hsome]
      simp
    · rcases hσ with hp | hp
      · exact absurd hp hX
      · exact absurd hp hY

/-- Helper: a positive requested sigma stays positive after planning. -/
theorem adjust_sigma_sigma_pos (σ : ℚ) (M : ℕ) (h : 0 < σ) :
    0 < (adjust_sigma σ M).sigma := by
  simp only [adjust_sigma]
  exact adjustSigmaAux_sigma_pos M σ 1 h

/-- Helper: every config of the model maps to a color type. -/
theorem grPixelConfigToColorType_isSome (cfg : GrPixelConfig) :
    ∃ ct, GrPixelConfigToColorType cfg = some ct := by
  cases cfg <;> exact ⟨_, rfl⟩

/-- Claim C3: for every valid blur invocation (at least one positive sigma,
per the spec's data model), a GaussianBlur run consumes the renderer's
fallible operations (allocations and texture-proxy extractions) in order,
returns an invalid (none) result exactly when one of the consumed
operations failed, and any failing operation is the last one consumed — the
pipeline aborts immediately, skipping all remaining stages, and never hands
a partial surface to the caller. -/
theorem gaussianBlur_aborts_on_first_failure (env : GpuEnv)
    (srcProxy : GrTextureProxy) (colorSpace : Option Unit)
    (dstBounds srcBounds : SkIRect) (sigmaX0 sigmaY0 : ℚ)
    (mode : GrTextureDomainMode) (alphaType : SkAlphaType) (fit : SkBackingFit)
    (hσ : 0 < sigmaX0 ∨ 0 < sigmaY0) :
    ConsumesOk env (GaussianBlur env srcProxy colorSpace dstBounds srcBounds
      sigmaX0 sigmaY0 mode alphaType fit) := by
  obtain ⟨ct, hct⟩ := grPixelConfigToColorType_isSome
    (get_blur_config srcProxy.config colorSpace)
  simp only [GaussianBlur, hct]
  apply consumesOk_ite
  · intro _
    exact consumesOk_convolve_gaussian_2d _ _ _ _ _ _ _ _ _ _ _
  · intro _
    apply consumesOk_gaussianBlurSeparable
    rcases hσ with h | h
    · exact Or.inl (adjust_sigma_sigma_pos _ _ h)
    · exact Or.inr (adjust_sigma_sigma_pos _ _ h)

/-- Witness for claim C3 at a concrete request. -/
theorem gaussianBlur_aborts_on_first_failure_witness :
    ConsumesOk ⟨fun _ => true, 1024⟩
      (GaussianBlur ⟨fun _ => true, 1024⟩ ⟨GrPixelConfig.kRGBA_8888, 0⟩ none
        (SkIRect.MakeWH 32 32) (SkIRect.MakeWH 32 32) 8 2
        GrTextureDomainMode.kClamp_Mode SkAlphaType.kPremul SkBackingFit.kExact) :=
  gaussianBlur_aborts_on_first_failure ⟨fun _ => true, 1024⟩
    ⟨GrPixelConfig.kRGBA_8888, 0⟩ none (SkIRect.MakeWH 32 32) (SkIRect.MakeWH 32 32)
    8 2 GrTextureDomainMode.kClamp_Mode SkAlphaType.kPremul SkBackingFit.kExact
    (Or.inl (by norm_num))

/-! EventsOk for each pipeline stage, with one hypothesis per shape of
event the stage can emit (carrying the exact parameter values the source
passes). -/

theorem eventsOk_none (p : GpuEvent → Bool) {α : Type} :
    EventsOk p (fun c => ([], c, (none : Option α))) := fun _ => rfl

theorem eventsOk_convolve_gaussian_1d (p : GpuEvent → Bool) (dstRect : SkIRect)
    (srcOffset : SkIPoint) (direction : Direction) (radius : ℤ) (sigma : ℚ)
    (mode : GrTextureDomainMode) (bounds : ℤ × ℤ)
    (h1 : p (.convolve1D dstRect srcOffset direction radius sigma mode
      bounds.1 bounds.2) = true) :
    EventsOk p (convolve_gaussian_1d dstRect srcOffset direction radius sigma
      mode bounds) := by
  unfold convolve_gaussian_1d
  exact eventsOk_emit p _ h1

theorem eventsOk_convolve_gaussian_2d (p : GpuEvent → Bool) (env : GpuEnv)
    (proxy : GrTextureProxy) (srcBounds : SkIRect) (srcOffset : SkIPoint)
    (radiusX radiusY : ℤ) (sigmaX sigmaY : ℚ) (mode : GrTextureDomainMode)
    (dstII : SkImageInfo) (dstFit : SkBackingFit)
    (hA : p (.alloc dstFit dstII.width dstII.height
      (get_blur_config proxy.config dstII.colorSpace) dstII.colorSpace) = true)
    (h2 : p (.convolve2D srcBounds srcOffset radiusX radiusY sigmaX sigmaY mode) = true) :
    EventsOk p (convolve_gaussian_2d env proxy srcBounds srcOffset radiusX radiusY
      sigmaX sigmaY mode dstII dstFit) := by
  simp only [convolve_gaussian_2d]
  apply eventsOk_gpuStep _ _ _ (eventsOk_alloc _ _ _ _ _ _ _ hA)
  intro rtc _
  exact eventsOk_gpuStep _ _ _ (eventsOk_emit _ _ h2) (fun _ _ => eventsOk_gpuPure _ _)

theorem eventsOk_convolve_gaussian (p : GpuEvent → Bool) (env : GpuEnv)
    (proxy : GrTextureProxy) (srcRect : SkIRect) (srcOffset : SkIPoint)
    (direction : Direction) (radius : ℤ) (sigma : ℚ) (srcBounds : SkIRect)
    (mode : GrTextureDomainMode) (dstII : SkImageInfo) (fit : SkBackingFit)
    (hA : p (.alloc fit srcRect.width srcRect.height
      (get_blur_config proxy.config dstII.colorSpace) dstII.colorSpace) = true)
    (hC : ∀ r, p (.clear r) = true)
    (h1 : ∀ dst off d rad sg md lo hi, p (.convolve1D dst off d rad sg md lo hi) = true) :
    EventsOk p (convolve_gaussian env proxy srcRect srcOffset direction radius
      sigma srcBounds mode dstII fit) := by
  simp only [convolve_gaussian]
  apply eventsOk_gpuStep _ _ _ (eventsOk_alloc _ _ _ _ _ _ _ hA)
  intro rtc _
  dsimp only
  split
  · exact eventsOk_gpuStep _ _ _
      (eventsOk_convolve_gaussian_1d _ _ _ _ _ _ _ _ (h1 _ _ _ _ _ _ _ _))
      (fun _ _ => eventsOk_gpuPure _ _)
  · apply eventsOk_gpuStep _ _ _
      (eventsOk_ite _ _ _ _ (fun _ => eventsOk_gpuPure _ _)
        (fun _ => eventsOk_emit _ _ (hC _)))
    intro _ _
    apply eventsOk_gpuStep _ _ _
      (eventsOk_ite _ _ _ _ (fun _ => eventsOk_gpuPure _ _)
        (fun _ => eventsOk_emit _ _ (hC _)))
    intro _ _
    split
    · exact eventsOk_gpuStep _ _ _
        (eventsOk_convolve_gaussian_1d _ _ _ _ _ _ _ _ (h1 _ _ _ _ _ _ _ _))
        (fun _ _ => eventsOk_gpuPure _ _)
    · apply eventsOk_gpuStep _ _ _
        (eventsOk_convolve_gaussian_1d _ _ _ _ _ _ _ _ (h1 _ _ _ _ _ _ _ _))
      intro _ _
      apply eventsOk_gpuStep _ _ _
        (eventsOk_convolve_gaussian_1d _ _ _ _ _ _ _ _ (h1 _ _ _ _ _ _ _ _))
      intro _ _
      exact eventsOk_gpuStep _ _ _
        (eventsOk_convolve_gaussian_1d _ _ _ _ _ _ _ _ (h1 _ _ _ _ _ _ _ _))
        (fun _ _ => eventsOk_gpuPure _ _)

theorem eventsOk_decimateLoop (p : GpuEvent → Bool) (env : GpuEnv)
    (config : GrPixelConfig) (cs : Option Unit) (contentRect : SkIRect)
    (sfX sfY : ℕ) (mode : GrTextureDomainMode)
    (hA : ∀ w h, p (.alloc .kApprox w h config cs) = true)
    (hD : ∀ dom dst src', p (.drawDomainBilerp dom
      (if mode = .kRepeat_Mode then .kDecal_Mode else mode) dst src') = true)
    (hCl : ∀ dst src', p (.drawClampBilerp dst src') = true) :
    ∀ (i : ℕ) (hi : 0 < i) (src : GrTextureProxy) (srcOffset : SkIPoint)
      (srcRect dstRect : SkIRect) (prev : Option GrRenderTargetContext),
    EventsOk p (decimateLoop env config cs contentRect sfX sfY mode i hi src
      srcOffset srcRect dstRect prev) := by
  intro i hi src srcOffset srcRect dstRect prev
  induction i, hi, src, srcOffset, srcRect, dstRect, prev
      using decimateLoop.induct env config cs contentRect sfX sfY mode with
  | case1 i hi src srcOffset srcRect dstRect prev h dstRect2 ih2 ih1 =>
    rw [decimateLoop.eq_def, dif_pos h]
    apply eventsOk_gpuStep _ _ _ (eventsOk_alloc _ _ _ _ _ _ _ (hA _ _))
    intro rtc _
    dsimp only
    split
    · rename_i hcond
      apply eventsOk_gpuStep _ _ _ (eventsOk_emit _ _ (hD _ _ _))
      intro _ _
      apply eventsOk_gpuStep _ _ _ (eventsOk_proxy _ _ _)
      intro src' _
      exact ih2 rtc hcond src'
    · apply eventsOk_gpuStep _ _ _ (eventsOk_emit _ _ (hCl _ _))
      intro _ _
      apply eventsOk_gpuStep _ _ _ (eventsOk_proxy _ _ _)
      intro src' _
      exact ih1 rtc src'
  | case2 i hi src srcOffset srcRect dstRect h rtc =>
    rw [decimateLoop.eq_def, dif_neg h]
    exact eventsOk_gpuPure _ _
  | case3 i hi src srcOffset srcRect dstRect h =>
    rw [decimateLoop.eq_def, dif_neg h]
    exact eventsOk_none _

theorem eventsOk_decimate (p : GpuEvent → Bool) (env : GpuEnv)
    (src : GrTextureProxy) (srcOffset : SkIPoint) (contentRect : SkIRect)
    (sfX sfY : ℕ) (willBeXFiltering willBeYFiltering : Bool)
    (radiusX radiusY : ℤ) (mode : GrTextureDomainMode) (dstII : SkImageInfo)
    (hA : ∀ w h, p (.alloc .kApprox w h
      (get_blur_config src.config dstII.colorSpace) dstII.colorSpace) = true)
    (hD : ∀ dom dst src', p (.drawDomainBilerp dom
      (if mode = .kRepeat_Mode then .kDecal_Mode else mode) dst src') = true)
    (hCl : ∀ dst src', p (.drawClampBilerp dst src') = true)
    (hAbs : ∀ r, p (.absClear r) = true) :
    EventsOk p (decimate env src srcOffset contentRect sfX sfY willBeXFiltering
      willBeYFiltering radiusX radiusY mode dstII) := by
  simp only [decimate]
  apply eventsOk_gpuStep _ _ _
    (eventsOk_decimateLoop _ _ _ _ _ _ _ _ hA hD hCl _ _ _ _ _ _ _)
  intro r _
  dsimp only
  apply eventsOk_gpuStep _ _ _
    (eventsOk_ite _ _ _ _
      (fun _ => eventsOk_ite _ _ _ _ (fun _ => eventsOk_emit _ _ (hAbs _))
        (fun _ => eventsOk_gpuPure _ _))
      (fun _ => eventsOk_ite _ _ _ _ (fun _ => eventsOk_emit _ _ (hAbs _))
        (fun _ => eventsOk_gpuPure _ _)))
  intro _ _
  apply eventsOk_gpuStep _ _ _ (eventsOk_proxy _ _ _)
  intro _ _
  exact eventsOk_gpuPure _ _

theorem eventsOk_reexpand (p : GpuEvent → Bool) (env : GpuEnv)
    (srcRTC : GrRenderTargetContext) (localSrcBounds : SkIRect) (sfX sfY : ℕ)
    (mode : GrTextureDomainMode) (dstII : SkImageInfo) (fit : SkBackingFit)
    (hAbs : ∀ r, p (.absClear r) = true)
    (hA : p (.alloc fit dstII.width dstII.height
      (get_blur_config srcRTC.config dstII.colorSpace) dstII.colorSpace) = true)
    (hD : ∀ dst src', p (.drawDomainBilerp (SkRect.Make localSrcBounds)
      (if mode = .kRepeat_Mode then .kDecal_Mode else mode) dst src') = true)
    (hCl : ∀ dst src', p (.drawClampBilerp dst src') = true) :
    EventsOk p (reexpand env srcRTC localSrcBounds sfX sfY mode dstII fit) := by
  simp only [reexpand]
  apply eventsOk_gpuStep _ _ _ (eventsOk_emit _ _ (hAbs _))
  intro _ _
  apply eventsOk_gpuStep _ _ _ (eventsOk_emit _ _ (hAbs _))
  intro _ _
  apply eventsOk_gpuStep _ _ _ (eventsOk_proxy _ _ _)
  intro srcProxy hproxy
  have hcfg := resultOf_proxy hproxy
  apply eventsOk_gpuStep _ _ _ (eventsOk_alloc _ _ _ _ _ _ _ (by rw [hcfg]; exact hA))
  intro dstRTC _
  dsimp only
  apply eventsOk_gpuStep _ _ _
    (eventsOk_ite _ _ _ _ (fun _ => eventsOk_emit _ _ (hD _ _))
      (fun _ => eventsOk_emit _ _ (hCl _ _)))
  intro _ _
  exact eventsOk_gpuPure _ _

theorem eventsOk_xPass (p : GpuEvent → Bool) (env : GpuEnv) (sigmaX sigmaY : ℚ)
    (radiusX radiusY : ℤ) (mode : GrTextureDomainMode) (finalDestII : SkImageInfo)
    (xFit : SkBackingFit) (st : BlurState)
    (hA : ∀ w h, p (.alloc xFit w h
      (get_blur_config st.srcProxy.config finalDestII.colorSpace)
      finalDestII.colorSpace) = true)
    (hC : ∀ r, p (.clear r) = true)
    (h1 : ∀ dst off d rad sg md lo hi, p (.convolve1D dst off d rad sg md lo hi) = true)
    (hAbs : ∀ r, p (.absClear r) = true) :
    EventsOk p (xPass env sigmaX sigmaY radiusX radiusY mode finalDestII xFit st) := by
  simp only [xPass]
  apply eventsOk_ite _ _ _ _ _ (fun _ => eventsOk_gpuPure _ _)
  intro _
  apply eventsOk_gpuStep _ _ _
    (eventsOk_convolve_gaussian _ _ _ _ _ _ _ _ _ _ _ _ (hA _ _) hC h1)
  intro rtc _
  apply eventsOk_gpuStep _ _ _
    (eventsOk_ite _ _ _ _ (fun _ => eventsOk_emit _ _ (hAbs _))
      (fun _ => eventsOk_gpuPure _ _))
  intro _ _
  apply eventsOk_gpuStep _ _ _ (eventsOk_proxy _ _ _)
  intro _ _
  exact eventsOk_gpuPure _ _

theorem eventsOk_yPass (p : GpuEvent → Bool) (env : GpuEnv) (sigmaY : ℚ)
    (radiusY : ℤ) (mode : GrTextureDomainMode) (finalDestII : SkImageInfo)
    (yFit : SkBackingFit) (st : BlurState)
    (hA : ∀ w h, p (.alloc yFit w h
      (get_blur_config st.srcProxy.config finalDestII.colorSpace)
      finalDestII.colorSpace) = true)
    (hC : ∀ r, p (.clear r) = true)
    (h1 : ∀ dst off d rad sg md lo hi, p (.convolve1D dst off d rad sg md lo hi) = true) :
    EventsOk p (yPass env sigmaY radiusY mode finalDestII yFit st) := by
  simp only [yPass]
  apply eventsOk_ite _ _ _ _ _ (fun _ => eventsOk_gpuPure _ _)
  intro _
  apply eventsOk_gpuStep _ _ _
    (eventsOk_convolve_gaussian _ _ _ _ _ _ _ _ _ _ _ _ (hA _ _) hC h1)
  intro rtc _
  apply eventsOk_gpuStep _ _ _ (eventsOk_proxy _ _ _)
  intro _ _
  exact eventsOk_gpuPure _ _

theorem eventsOk_blurFinish (p : GpuEvent → Bool) (env : GpuEnv) (sfX sfY : ℕ)
    (mode : GrTextureDomainMode) (finalDestII : SkImageInfo) (fit : SkBackingFit)
    (st : BlurState)
    (hre : ∀ rtc, st.dstRTC = some rtc →
      EventsOk p (reexpand env rtc st.localSrcBounds sfX sfY mode finalDestII fit)) :
    EventsOk p (blurFinish env sfX sfY mode finalDestII fit st) := by
  rcases hrtc : st.dstRTC with _ | rtc
  · simp only [blurFinish, hrtc]
    exact eventsOk_none _
  · simp only [blurFinish, hrtc]
    exact eventsOk_ite _ _ _ _ (fun _ => hre rtc hrtc) (fun _ => eventsOk_gpuPure _ _)

def GpuEvent.isConvolve2D : GpuEvent → Bool
  | .convolve2D _ _ _ _ _ _ _ => true
  | _ => false

/-- Helper: the general separable path never issues a fused 2-D convolution
draw. -/
theorem gaussianBlurSeparable_no_convolve2D (env : GpuEnv)
    (srcProxy : GrTextureProxy) (srcBounds : SkIRect) (srcOffset : SkIPoint)
    (sigmaX sigmaY : ℚ) (sfX sfY : ℕ) (radiusX radiusY : ℤ)
    (mode : GrTextureDomainMode) (finalDestII : SkImageInfo) (fit : SkBackingFit) :
    EventsOk (fun e => !e.isConvolve2D)
      (gaussianBlurSeparable env srcProxy srcBounds srcOffset sigmaX sigmaY sfX
        sfY radiusX radiusY mode finalDestII fit) := by
  simp only [gaussianBlurSeparable]
  apply eventsOk_gpuStep _ _ _
    (eventsOk_ite _ _ _ _
      (fun _ => eventsOk_decimate _ _ _ _ _ _ _ _ _ _ _ _ _
        (fun _ _ => rfl) (fun _ _ _ => rfl) (fun _ _ => rfl) (fun _ => rfl))
      (fun _ => eventsOk_gpuPure _ _))
  intro d _
  dsimp only
  apply eventsOk_gpuStep _ _ _
    (eventsOk_xPass _ _ _ _ _ _ _ _ _ _ (fun _ _ => rfl) (fun _ => rfl)
      (fun _ _ _ _ _ _ _ _ => rfl) (fun _ => rfl))
  intro st2 _
  apply eventsOk_gpuStep _ _ _
    (eventsOk_yPass _ _ _ _ _ _ _ _ (fun _ _ => rfl) (fun _ => rfl)
      (fun _ _ _ _ _ _ _ _ => rfl))
  intro st3 _
  apply eventsOk_blurFinish
  intro rtc _
  exact eventsOk_reexpand _ _ _ _ _ _ _ _ _ (fun _ => rfl) rfl
    (fun _ _ => rfl) (fun _ _ => rfl)

/-- Claim C2: the blur orchestrator takes the fused 2-D convolution path
exactly when both planned sigmas are positive and the total tap count
(2 radiusX + 1)(2 radiusY + 1) does not exceed the fixed fusion threshold
MAX_KERNEL_SIZE; in every other case it runs the general separable path
(optional decimation, per-axis 1-D passes, optional re-expansion), which
never issues a fused 2-D convolution draw. -/
theorem gaussianBlur_fused_path_iff (env : GpuEnv) (srcProxy : GrTextureProxy)
    (colorSpace : Option Unit) (dstBounds srcBounds : SkIRect)
    (sigmaX0 sigmaY0 : ℚ) (mode : GrTextureDomainMode) (alphaType : SkAlphaType)
    (fit : SkBackingFit) :
    ∃ ct, GrPixelConfigToColorType (get_blur_config srcProxy.config colorSpace) = some ct
    ∧ ((0 < (adjust_sigma sigmaX0 env.maxTextureSize).sigma
          ∧ 0 < (adjust_sigma sigmaY0 env.maxTextureSize).sigma
          ∧ (2 * (adjust_sigma sigmaX0 env.maxTextureSize).radius + 1)
              * (2 * (adjust_sigma sigmaY0 env.maxTextureSize).radius + 1)
              ≤ MAX_KERNEL_SIZE)
        → GaussianBlur env srcProxy colorSpace dstBounds srcBounds sigmaX0 sigmaY0
            mode alphaType fit
          = convolve_gaussian_2d env srcProxy srcBounds
              ⟨-dstBounds.fLeft, -dstBounds.fTop⟩
              (adjust_sigma sigmaX0 env.maxTextureSize).radius
              (adjust_sigma sigmaY0 env.maxTextureSize).radius
              (adjust_sigma sigmaX0 env.maxTextureSize).sigma
              (adjust_sigma sigmaY0 env.maxTextureSize).sigma
              mode ⟨dstBounds.width, dstBounds.height, ct, alphaType, colorSpace⟩ fit)
    ∧ (¬ (0 < (adjust_sigma sigmaX0 env.maxTextureSize).sigma
          ∧ 0 < (adjust_sigma sigmaY0 env.maxTextureSize).sigma
          ∧ (2 * (adjust_sigma sigmaX0 env.maxTextureSize).radius + 1)
              * (2 * (adjust_sigma sigmaY0 env.maxTextureSize).radius + 1)
              ≤ MAX_KERNEL_SIZE)
        → GaussianBlur env srcProxy colorSpace dstBounds srcBounds sigmaX0 sigmaY0
            mode alphaType fit
          = gaussianBlurSeparable env srcProxy srcBounds
              ⟨-dstBounds.fLeft, -dstBounds.fTop⟩
              (adjust_sigma sigmaX0 env.maxTextureSize).sigma
              (adjust_sigma sigmaY0 env.maxTextureSize).sigma
              (adjust_sigma sigmaX0 env.maxTextureSize).scaleFactor
              (adjust_sigma sigmaY0 env.maxTextureSize).scaleFactor
              (adjust_sigma sigmaX0 env.maxTextureSize).radius
              (adjust_sigma sigmaY0 env.maxTextureSize).radius
              mode ⟨dstBounds.width, dstBounds.height, ct, alphaType, colorSpace⟩ fit
          ∧ EventsOk (fun e => !e.isConvolve2D)
              (gaussianBlurSeparable env srcProxy srcBounds
                ⟨-dstBounds.fLeft, -dstBounds.fTop⟩
                (adjust_sigma sigmaX0 env.maxTextureSize).sigma
                (adjust_sigma sigmaY0 env.maxTextureSize).sigma
                (adjust_sigma sigmaX0 env.maxTextureSize).scaleFactor
                (adjust_sigma sigmaY0 env.maxTextureSize).scaleFactor
                (adjust_sigma sigmaX0 env.maxTextureSize).radius
                (adjust_sigma sigmaY0 env.maxTextureSize).radius
                mode ⟨dstBounds.width, dstBounds.height, ct, alphaType, colorSpace⟩ fit)) := by
  obtain ⟨ct, hct⟩ := grPixelConfigToColorType_isSome
    (get_blur_config srcProxy.config colorSpace)
  refine ⟨ct, hct, ?_, ?_⟩
  · intro hcond
    simp only [GaussianBlur, hct]
    rw [if_pos hcond]
  · intro hcond
    refine ⟨?_, gaussianBlurSeparable_no_convolve2D _ _ _ _ _ _ _ _ _ _ _ _ _⟩
    simp only [GaussianBlur, hct]
    rw [if_neg hcond]

/-- Witness for claim C2: with sigma 0.5 on both axes (radius 2, 25 taps)
the fused path is taken. -/
theorem gaussianBlur_fused_path_iff_witness :
    GaussianBlur ⟨fun _ => true, 1024⟩ ⟨GrPixelConfig.kRGBA_8888, 0⟩ none
      (SkIRect.MakeWH 16 16) (SkIRect.MakeWH 16 16) (1/2) (1/2)
      GrTextureDomainMode.kClamp_Mode SkAlphaType.kPremul SkBackingFit.kExact
    = convolve_gaussian_2d ⟨fun _ => true, 1024⟩ ⟨GrPixelConfig.kRGBA_8888, 0⟩
      (SkIRect.MakeWH 16 16) ⟨0, 0⟩ 2 2 (1/2) (1/2)
      GrTextureDomainMode.kClamp_Mode
      ⟨16, 16, SkColorType.kRGBA_8888, SkAlphaType.kPremul, none⟩
      SkBackingFit.kExact := by
  obtain ⟨ct, hct, H1, H2⟩ := gaussianBlur_fused_path_iff ⟨fun _ => true, 1024⟩
    ⟨GrPixelConfig.kRGBA_8888, 0⟩ none (SkIRect.MakeWH 16 16) (SkIRect.MakeWH 16 16)
    (1/2) (1/2) GrTextureDomainMode.kClamp_Mode SkAlphaType.kPremul SkBackingFit.kExact
  have hctv : SkColorType.kRGBA_8888 = ct := by
    have h0 : GrPixelConfigToColorType
        (get_blur_config (GrTextureProxy.mk GrPixelConfig.kRGBA_8888 0).config none)
        = some SkColorType.kRGBA_8888 := rfl
    rw [h0] at hct
    exact Option.some_inj.mp hct
  have hceil : Int.ceil ((1 : ℚ)/2 * 3) = 2 := by
    rw [show ((1 : ℚ)/2 * 3) = 3/2 by ring, Int.ceil_eq_iff]
    norm_num
  have hplan : adjust_sigma (1/2 : ℚ) 1024 = ⟨1/2, 1, 2⟩ := by
    simp only [adjust_sigma,
      adjustSigmaAux_of_le 1024 (1/2) 1 (by norm_num [MAX_BLUR_SIGMA]), hceil]
  have hcond : 0 < (adjust_sigma ((1:ℚ)/2) 1024).sigma
      ∧ 0 < (adjust_sigma ((1:ℚ)/2) 1024).sigma
      ∧ (2 * (adjust_sigma ((1:ℚ)/2) 1024).radius + 1)
          * (2 * (adjust_sigma ((1:ℚ)/2) 1024).radius + 1) ≤ MAX_KERNEL_SIZE := by
    rw [hplan]
    norm_num [MAX_KERNEL_SIZE]
  rcases hctv
  have hmain := H1 hcond
  rw [hmain, hplan]
  rfl

/-- Predicate: if the event is a domain-restricted bilinear sampling draw,
its domain mode is Decal. -/
def GpuEvent.domainDrawIsDecal : GpuEvent → Bool
  | .drawDomainBilerp _ m _ _ => m == GrTextureDomainMode.kDecal_Mode
  | _ => true

/-- Claim C9: in Repeat mode, every domain-restricted bilinear sampling
draw issued by decimation or by re-expansion uses the Decal domain mode
(GrTextureDomainEffect does not support Repeat with filtering, source
lines 292-295 and 392-395). -/
theorem repeat_blur_scaling_uses_decal (env : GpuEnv) (src : GrTextureProxy)
    (srcOffset : SkIPoint) (contentRect : SkIRect) (sfX sfY : ℕ)
    (willBeXFiltering willBeYFiltering : Bool) (radiusX radiusY : ℤ)
    (srcRTC : GrRenderTargetContext) (localSrcBounds : SkIRect)
    (dstII : SkImageInfo) (fit : SkBackingFit) (mode : GrTextureDomainMode)
    (hmode : mode = GrTextureDomainMode.kRepeat_Mode) :
    EventsOk GpuEvent.domainDrawIsDecal
      (decimate env src srcOffset contentRect sfX sfY willBeXFiltering
        willBeYFiltering radiusX radiusY mode dstII)
    ∧ EventsOk GpuEvent.domainDrawIsDecal
      (reexpand env srcRTC localSrcBounds sfX sfY mode dstII fit) := by
  subst hmode
  constructor
  · exact eventsOk_decimate _ _ _ _ _ _ _ _ _ _ _ _ _
      (fun _ _ => rfl) (fun _ _ _ => rfl) (fun _ _ => rfl) (fun _ => rfl)
  · exact eventsOk_reexpand _ _ _ _ _ _ _ _ _
      (fun _ => rfl) rfl (fun _ _ => rfl) (fun _ _ => rfl)

/-- Witness for claim C9 at a concrete Repeat-mode decimation and
re-expansion. -/
theorem repeat_blur_scaling_uses_decal_witness :
    EventsOk GpuEvent.domainDrawIsDecal
      (decimate ⟨fun _ => true, 1024⟩ ⟨GrPixelConfig.kRGBA_8888, 0⟩ ⟨0, 0⟩
        (SkIRect.MakeWH 8 8) 1 2 true true 3 12 GrTextureDomainMode.kRepeat_Mode
        ⟨8, 8, SkColorType.kRGBA_8888, SkAlphaType.kPremul, none⟩)
    ∧ EventsOk GpuEvent.domainDrawIsDecal
      (reexpand ⟨fun _ => true, 1024⟩ ⟨8, 4, GrPixelConfig.kRGBA_8888, none, 3⟩
        (SkIRect.MakeWH 8 4) 1 2 GrTextureDomainMode.kRepeat_Mode
        ⟨8, 8, SkColorType.kRGBA_8888, SkAlphaType.kPremul, none⟩
        SkBackingFit.kExact) :=
  repeat_blur_scaling_uses_decal ⟨fun _ => true, 1024⟩
    ⟨GrPixelConfig.kRGBA_8888, 0⟩ ⟨0, 0⟩ (SkIRect.MakeWH 8 8) 1 2 true true 3 12
    ⟨8, 4, GrPixelConfig.kRGBA_8888, none, 3⟩ (SkIRect.MakeWH 8 4)
    ⟨8, 8, SkColorType.kRGBA_8888, SkAlphaType.kPremul, none⟩
    SkBackingFit.kExact GrTextureDomainMode.kRepeat_Mode rfl

/-- Predicate: if the event is a render-target allocation, its pixel config
is b. -/
def GpuEvent.allocUsesConfig (b : GrPixelConfig) : GpuEvent → Bool
  | .alloc _ _ _ cfg _ => cfg == b
  | _ => true

/-- Helper: get_blur_config is stable — applying it to its own output (with
the same color space) changes nothing. -/
theorem get_blur_config_idem (cfg : GrPixelConfig) (cs : Option Unit) :
    get_blur_config (get_blur_config cfg cs) cs = get_blur_config cfg cs := by
  cases cfg <;> cases cs <;> rfl

/-- Helper: every allocation of the separable path uses the blur config
computed from the entry proxy's config. -/
theorem eventsOk_allocs_gaussianBlurSeparable (env : GpuEnv)
    (srcProxy : GrTextureProxy) (srcBounds : SkIRect) (srcOffset : SkIPoint)
    (sigmaX sigmaY : ℚ) (sfX sfY : ℕ) (radiusX radiusY : ℤ)
    (mode : GrTextureDomainMode) (finalDestII : SkImageInfo) (fit : SkBackingFit) :
    EventsOk (GpuEvent.allocUsesConfig
        (get_blur_config srcProxy.config finalDestII.colorSpace))
      (gaussianBlurSeparable env srcProxy srcBounds srcOffset sigmaX sigmaY sfX
        sfY radiusX radiusY mode finalDestII fit) := by
  simp only [gaussianBlurSeparable]
  apply eventsOk_gpuStep _ _ _
    (eventsOk_ite _ _ _ _
      (fun _ => eventsOk_decimate _ _ _ _ _ _ _ _ _ _ _ _ _
        (fun _ _ => by simp [GpuEvent.allocUsesConfig])
        (fun _ _ _ => rfl) (fun _ _ => rfl) (fun _ => rfl))
      (fun _ => eventsOk_gpuPure _ _))
  intro d hd
  have hd1 : get_blur_config d.1.config finalDestII.colorSpace
      = get_blur_config srcProxy.config finalDestII.colorSpace := by
    rcases resultOf_ite hd with ⟨hsf, hdec⟩ | ⟨hsf, hpure⟩
    · rw [resultOf_decimate hdec]
      exact get_blur_config_idem _ _
    · rw [resultOf_gpuPure hpure]
  apply eventsOk_gpuStep _ _ _
    (eventsOk_xPass _ _ _ _ _ _ _ _ _ _
      (fun _ _ => by simp [GpuEvent.allocUsesConfig, hd1])
      (fun _ => rfl) (fun _ _ _ _ _ _ _ _ => rfl) (fun _ => rfl))
  intro st2 hst2
  have hst2c : get_blur_config st2.srcProxy.config finalDestII.colorSpace
      = get_blur_config srcProxy.config finalDestII.colorSpace := by
    rcases resultOf_xPass hst2 with ⟨_, hcfg, _⟩ | ⟨_, heq⟩
    · rw [hcfg]
      dsimp only
      rw [hd1]
      exact get_blur_config_idem _ _
    · rw [heq]
      exact hd1
  apply eventsOk_gpuStep _ _ _
    (eventsOk_yPass _ _ _ _ _ _ _ _
      (fun _ _ => by simp [GpuEvent.allocUsesConfig, hst2c])
      (fun _ => rfl) (fun _ _ _ _ _ _ _ _ => rfl))
  intro st3 hst3
  apply eventsOk_blurFinish
  intro rtc hrtc
  have hrtcc : get_blur_config rtc.config finalDestII.colorSpace
      = get_blur_config srcProxy.config finalDestII.colorSpace := by
    rcases resultOf_yPass hst3 with ⟨_, _, rtc', hsome, hcfg'⟩ | ⟨_, heq⟩
    · rw [hsome] at hrtc
      cases hrtc
      rw [hcfg']
      rw [hst2c]
      exact get_blur_config_idem _ _
    · rw [heq] at hrtc
      rcases resultOf_xPass hst2 with ⟨_, _, rtc'', hsome2, hcfg2⟩ | ⟨_, heq2⟩
      · rw [hsome2] at hrtc
        cases hrtc
        rw [hcfg2]
        dsimp only
        rw [hd1]
        exact get_blur_config_idem _ _
      · rw [heq2] at hrtc
        exact absurd hrtc (by simp)
  exact eventsOk_reexpand _ _ _ _ _ _ _ _ _
    (fun _ => rfl)
    (by simp [GpuEvent.allocUsesConfig, hrtcc])
    (fun _ _ => rfl) (fun _ _ => rfl)

/-- Claim C10: every surface GaussianBlur allocates (fused path,
decimation steps, convolution passes, re-expansion) uses the config that is
RGBA_8888 when the source proxy's config is sRGB and the destination color
space is null, and the source proxy's config unchanged in every other
combination. -/
theorem gaussianBlur_allocs_use_blur_config (env : GpuEnv)
    (srcProxy : GrTextureProxy) (colorSpace : Option Unit)
    (dstBounds srcBounds : SkIRect) (sigmaX0 sigmaY0 : ℚ)
    (mode : GrTextureDomainMode) (alphaType : SkAlphaType) (fit : SkBackingFit) :
    EventsOk (GpuEvent.allocUsesConfig
        (if GrPixelConfigIsSRGB srcProxy.config && colorSpace.isNone
         then GrPixelConfig.kRGBA_8888 else srcProxy.config))
      (GaussianBlur env srcProxy colorSpace dstBounds srcBounds sigmaX0 sigmaY0
        mode alphaType fit) := by
  have hgb : (if GrPixelConfigIsSRGB srcProxy.config && colorSpace.isNone
      then GrPixelConfig.kRGBA_8888 else srcProxy.config)
      = get_blur_config srcProxy.config colorSpace := rfl
  rw [hgb]
  obtain ⟨ct, hct⟩ := grPixelConfigToColorType_isSome
    (get_blur_config srcProxy.config colorSpace)
  simp only [GaussianBlur, hct]
  apply eventsOk_ite
  · intro _
    exact eventsOk_convolve_gaussian_2d _ _ _ _ _ _ _ _ _ _ _ _
      (by simp [GpuEvent.allocUsesConfig]) rfl
  · intro _
    exact eventsOk_allocs_gaussianBlurSeparable _ _ _ _ _ _ _ _ _ _ _ _ _

def GpuEvent.isAbsClear : GpuEvent → Bool
  | .absClear _ => true
  | _ => false

/-- Helper: successful runs of a sequenced computation decompose into
successful runs of the two parts. -/
theorem gpuStep_some_elim {α β : Type} {f : GpuM α} {g : α → GpuM β} {c c' : ℕ}
    {evs : List GpuEvent} {b : β} (h : gpuStep f g c = (evs, c', some b)) :
    ∃ evsf cf a evsg, f c = (evsf, cf, some a) ∧ g a cf = (evsg, c', some b)
      ∧ evs = evsf ++ evsg := by
  rcases hfc : f c with ⟨evsf, cf, r⟩
  cases r with
  | none =>
    rw [show gpuStep f g c = (evsf, cf, none) by simp only [gpuStep, hfc]] at h
    injection h with h1 h23
    injection h23 with h2 h3
    exact absurd h3 (by simp)
  | some a =>
    rcases hgc : g a cf with ⟨evsg, cg, r2⟩
    rw [show gpuStep f g c = (evsf ++ evsg, cg, r2) by simp only [gpuStep, hfc, hgc]] at h
    injection h with h1 h23
    injection h23 with h2 h3
    refine ⟨evsf, cf, a, evsg, rfl, ?_, h1.symm⟩
    rw [hgc, h2, h3]

/-- Helper: characterisation of the halo clears a successful decimate run
issues after its final halving step — there is a clear exactly when the
ensuing X pass exists and X itself was decimated (a radiusX-wide strip
right of the final content rectangle), or no X pass exists and Y was
decimated (a radiusY-tall strip below it). -/
theorem decimate_absClear_filter (env : GpuEnv) (src : GrTextureProxy)
    (srcOffset : SkIPoint) (contentRect : SkIRect) (sfX sfY : ℕ)
    (wX wY : Bool) (radiusX radiusY : ℤ) (mode : GrTextureDomainMode)
    (dstII : SkImageInfo) (c : ℕ) (evs : List GpuEvent) (c' : ℕ)
    (res : GrTextureProxy × SkIPoint × SkIRect)
    (hrun : decimate env src srcOffset contentRect sfX sfY wX wY radiusX radiusY
      mode dstII c = (evs, c', some res)) :
    evs.filter GpuEvent.isAbsClear
      = if wX then
          (if 1 < sfX then
            [GpuEvent.absClear (SkIRect.MakeXYWH res.2.2.fRight res.2.2.fTop
              radiusX res.2.2.height)]
           else [])
        else
          (if 1 < sfY then
            [GpuEvent.absClear (SkIRect.MakeXYWH res.2.2.fLeft res.2.2.fBottom
              res.2.2.width radiusY)]
           else []) := by
  have hAll := eventsOk_decimateLoop (fun e => !GpuEvent.isAbsClear e) env
    (get_blur_config src.config dstII.colorSpace) dstII.colorSpace contentRect
    sfX sfY mode (fun _ _ => rfl) (fun _ _ _ => rfl) (fun _ _ => rfl)
  simp only [decimate] at hrun
  obtain ⟨evsL, c1, r0, evs2, hloop, hrest, hevs⟩ := gpuStep_some_elim hrun
  obtain ⟨evsC, c2, u, evs3, hclears, hrest2, hevs2⟩ := gpuStep_some_elim hrest
  obtain ⟨evsP, c3, p, evs4, hproxy, hpure, hevs3⟩ := gpuStep_some_elim hrest2
  have hres : res = (p, r0.2.1, r0.2.2) ∧ evs4 = [] := by
    simp only [gpuPure] at hpure
    injection hpure with e1 e23
    injection e23 with e2 e3
    exact ⟨(Option.some_inj.mp e3).symm, e1.symm⟩
  have hevsP : evsP = [] := by
    simp only [asTextureProxyRef] at hproxy
    injection hproxy with e1 _
    exact e1.symm
  have hL : evsL.all (fun e => !GpuEvent.isAbsClear e) = true := by
    have E := congrArg
      (fun t : List GpuEvent × ℕ × Option (GrRenderTargetContext × SkIPoint × SkIRect) =>
        t.1.all (fun e => !GpuEvent.isAbsClear e)) hloop
    simp only at E
    rw [← E]
    exact hAll _ _ _ _ _ _ _ c
  have hLnil : evsL.filter GpuEvent.isAbsClear = [] := by
    rw [List.filter_eq_nil_iff]
    intro e he
    have := List.all_eq_true.mp hL e he
    simp only [Bool.not_eq_true'] at this
    simp [this]
  rw [hres.1]
  rw [hevs, hevs2, hevs3, hevsP, hres.2]
  simp only [List.append_nil, List.nil_append, List.filter_append, hLnil]
  cases wX with
  | true =>
    simp only [if_pos rfl]
    by_cases hsf : 1 < sfX
    · rw [if_pos hsf] at hclears ⊢
      rw [if_pos rfl] at hclears
      simp only [emit] at hclears
      injection hclears with e1 _
      rw [← e1]
      simp [GpuEvent.isAbsClear]
    · rw [if_neg hsf] at hclears ⊢
      rw [if_pos rfl] at hclears
      simp only [gpuPure] at hclears
      injection hclears with e1 _
      rw [← e1]
      simp
  | false =>
    simp only [Bool.false_eq_true, if_neg (by simp : ¬ (False : Prop))]
    by_cases hsf : 1 < sfY
    · rw [if_pos hsf] at hclears ⊢
      rw [if_neg (by simp)] at hclears
      simp only [emit] at hclears
      injection hclears with e1 _
      rw [← e1]
      simp [GpuEvent.isAbsClear]
    · rw [if_neg hsf] at hclears ⊢
      rw [if_neg (by simp)] at hclears
      simp only [gpuPure] at hclears
      injection hclears with e1 _
      rw [← e1]
      simp

/-- Claim C7 (counterexample): with scaleFactorX = 1, scaleFactorY = 2 and an
X convolution pass still to come (willBeXFiltering = true), the claim demands
a halo strip of radiusX width beyond the content rectangle be cleared after
the final halving step — but the successful decimate run issues no absClear
at all (the source only clears when the filtered axis itself was decimated,
lines 332-348). -/
theorem decimate_halo_clear_claim_counterexample :
    ∃ evs c' res,
      decimate ⟨fun _ => true, 1024⟩ ⟨GrPixelConfig.kRGBA_8888, 0⟩ ⟨0, 0⟩
        (SkIRect.MakeWH 8 8) 1 2 true true 3 12 GrTextureDomainMode.kClamp_Mode
        ⟨8, 8, SkColorType.kRGBA_8888, SkAlphaType.kPremul, none⟩ 0
      = (evs, c', some res)
      ∧ evs.all (fun e => !GpuEvent.isAbsClear e) = true := by
  have hC := consumesOk_decimate ⟨fun _ => true, 1024⟩
    ⟨GrPixelConfig.kRGBA_8888, 0⟩ ⟨0, 0⟩ (SkIRect.MakeWH 8 8) 1 2 true true 3 12
    GrTextureDomainMode.kClamp_Mode
    ⟨8, 8, SkColorType.kRGBA_8888, SkAlphaType.kPremul, none⟩
    (Or.inr (by norm_num))
  obtain ⟨hle, hiff, hlast⟩ := hC 0
  rcases hrunEq : decimate ⟨fun _ => true, 1024⟩ ⟨GrPixelConfig.kRGBA_8888, 0⟩
      ⟨0, 0⟩ (SkIRect.MakeWH 8 8) 1 2 true true 3 12
      GrTextureDomainMode.kClamp_Mode
      ⟨8, 8, SkColorType.kRGBA_8888, SkAlphaType.kPremul, none⟩ 0
      with ⟨evs, c', r⟩
  rw [hrunEq] at hiff
  cases r with
  | none =>
    exfalso
    obtain ⟨i, _, _, hfail⟩ := hiff.mp rfl
    exact absurd hfail (by simp)
  | some res =>
    refine ⟨evs, c', res, rfl, ?_⟩
    have hfil := decimate_absClear_filter _ _ _ _ _ _ _ _ _ _ _ _ _ _ _ _ hrunEq
    rw [if_pos rfl, if_neg (by norm_num : ¬ (1 : ℕ) < 1)] at hfil
    rw [List.all_eq_true]
    intro e he
    have := List.filter_eq_nil_iff.mp hfil e he
    simpa using this

/-- Claim C7 (amended): after the final halving step, a successful decimate
run clears a halo strip exactly when the following convolution pass's own
axis was decimated — with an X pass to come and scaleFactorX > 1, a
radiusX-wide strip right of the final content rectangle; with no X pass to
come and scaleFactorY > 1, a radiusY-tall strip below it; and in
particular no halo is cleared for a pass along an axis whose scale factor
is 1. -/
theorem decimate_halo_clear_on_decimated_axis (env : GpuEnv)
    (src : GrTextureProxy) (srcOffset : SkIPoint) (contentRect : SkIRect)
    (sfX sfY : ℕ) (wX wY : Bool) (radiusX radiusY : ℤ)
    (mode : GrTextureDomainMode) (dstII : SkImageInfo) (c : ℕ)
    (evs : List GpuEvent) (c' : ℕ) (res : GrTextureProxy × SkIPoint × SkIRect)
    (hrun : decimate env src srcOffset contentRect sfX sfY wX wY radiusX radiusY
      mode dstII c = (evs, c', some res)) :
    evs.filter GpuEvent.isAbsClear
      = if wX then
          (if 1 < sfX then
            [GpuEvent.absClear (SkIRect.MakeXYWH res.2.2.fRight res.2.2.fTop
              radiusX res.2.2.height)]
           else [])
        else
          (if 1 < sfY then
            [GpuEvent.absClear (SkIRect.MakeXYWH res.2.2.fLeft res.2.2.fBottom
              res.2.2.width radiusY)]
           else []) :=
  decimate_absClear_filter env src srcOffset contentRect sfX sfY wX wY radiusX
    radiusY mode dstII c evs c' res hrun

/-- Witness for the amended claim C7: X pass to come and X decimated
(scaleFactorX = 2) — exactly one halo clear, the radiusX strip right of the
content rectangle. -/
theorem decimate_halo_clear_on_decimated_axis_witness :
    ∃ evs c' res,
      decimate ⟨fun _ => true, 1024⟩ ⟨GrPixelConfig.kRGBA_8888, 0⟩ ⟨0, 0⟩
        (SkIRect.MakeWH 8 8) 2 1 true false 12 0 GrTextureDomainMode.kClamp_Mode
        ⟨8, 8, SkColorType.kRGBA_8888, SkAlphaType.kPremul, none⟩ 0
      = (evs, c', some res)
      ∧ evs.filter GpuEvent.isAbsClear
        = [GpuEvent.absClear (SkIRect.MakeXYWH res.2.2.fRight res.2.2.fTop 12
            res.2.2.height)] := by
  have hC := consumesOk_decimate ⟨fun _ => true, 1024⟩
    ⟨GrPixelConfig.kRGBA_8888, 0⟩ ⟨0, 0⟩ (SkIRect.MakeWH 8 8) 2 1 true false 12 0
    GrTextureDomainMode.kClamp_Mode
    ⟨8, 8, SkColorType.kRGBA_8888, SkAlphaType.kPremul, none⟩
    (Or.inl (by norm_num))
  obtain ⟨hle, hiff, hlast⟩ := hC 0
  rcases hrunEq : decimate ⟨fun _ => true, 1024⟩ ⟨GrPixelConfig.kRGBA_8888, 0⟩
      ⟨0, 0⟩ (SkIRect.MakeWH 8 8) 2 1 true false 12 0
      GrTextureDomainMode.kClamp_Mode
      ⟨8, 8, SkColorType.kRGBA_8888, SkAlphaType.kPremul, none⟩ 0
      with ⟨evs, c', r⟩
  rw [hrunEq] at hiff
  cases r with
  | none =>
    exfalso
    obtain ⟨i, _, _, hfail⟩ := hiff.mp rfl
    exact absurd hfail (by simp)
  | some res =>
    refine ⟨evs, c', res, rfl, ?_⟩
    have hfil := decimate_halo_clear_on_decimated_axis _ _ _ _ _ _ _ _ _ _ _ _ _ _ _ _ hrunEq
    rw [if_pos rfl, if_pos (by norm_num : (1 : ℕ) < 2)] at hfil
    exact hfil

/-- Claim C8: before the bilinear re-expansion draw is issued, reexpand
clears the one-pixel strip immediately below and the one-pixel strip
immediately to the right of the source surface's content rectangle (the
surface's full logical rectangle, as the source's srcRect defines it) —
they are the first two commands of every reexpand run. -/
theorem reexpand_clears_halo_before_sampling (env : GpuEnv)
    (srcRTC : GrRenderTargetContext) (localSrcBounds : SkIRect) (sfX sfY : ℕ)
    (mode : GrTextureDomainMode) (dstII : SkImageInfo) (fit : SkBackingFit)
    (c : ℕ) :
    ∃ rest,
      (reexpand env srcRTC localSrcBounds sfX sfY mode dstII fit c).1
      = GpuEvent.absClear (SkIRect.MakeXYWH
            (SkIRect.MakeWH srcRTC.width srcRTC.height).fLeft
            (SkIRect.MakeWH srcRTC.width srcRTC.height).fBottom
            ((SkIRect.MakeWH srcRTC.width srcRTC.height).width + 1) 1)
        :: GpuEvent.absClear (SkIRect.MakeXYWH
            (SkIRect.MakeWH srcRTC.width srcRTC.height).fRight
            (SkIRect.MakeWH srcRTC.width srcRTC.height).fTop
            1 (SkIRect.MakeWH srcRTC.width srcRTC.height).height)
        :: rest := by
  exact ⟨_, rfl⟩
